import Mathlib

/-!
Tubely upload handlers.

A shallow embedding of `handler_upload_thumbnail.go` and `handler_upload_video.go`.

* External collaborators (UUID parsing, JWT validation, the metadata store, the MIME tables,
  the local file system calls, `ffprobe`, `ffmpeg`, the object store) are outcomes supplied by
  an environment record `Env`; the handlers are total functions of the request, the
  configuration, the environment and the starting `World`.
* A `World` carries the local disk, the chronological trace of external calls (with their
  outcome) and the HTTP response written so far (`none` while nothing has been written).
* `float64` arithmetic is modelled exactly: a finite double is the rational it denotes and
  every operation rounds its exact result to the nearest double, ties to even.
-/

namespace Tubely

/-! ## binary64 arithmetic -/

/-- Exponent of a positive rational: the integer `e` with `2 ^ e ≤ x < 2 ^ (e + 1)`. -/
def ilog2 (x : ℚ) : ℤ :=
  let e0 : ℤ := (Nat.log2 x.num.natAbs : ℤ) - (Nat.log2 x.den : ℤ)
  if (2 : ℚ) ^ e0 ≤ x then e0 else e0 - 1

/-- Nearest integer, a tie going to the even neighbour. -/
def roundHalfEven (m : ℚ) : ℤ :=
  if m - ⌊m⌋ < 1 / 2 then ⌊m⌋
  else if 1 / 2 < m - ⌊m⌋ then ⌊m⌋ + 1
  else if ⌊m⌋ % 2 = 0 then ⌊m⌋ else ⌊m⌋ + 1

/-- Rounding of a positive rational to 53 significant bits. -/
def roundPos (x : ℚ) : ℚ :=
  (roundHalfEven (x / 2 ^ (ilog2 x - 52)) : ℚ) * 2 ^ (ilog2 x - 52)

/-- Round to nearest double, ties to even. The exponent is not bounded here: every value the
handlers round is an `int`, a quotient of two rounded `int`s, or one of four literals, all
of magnitude between `2 ^ (-64)` and `2 ^ 64` (or zero), so neither overflow nor gradual
underflow occurs. -/
def roundF64 (x : ℚ) : ℚ :=
  if x = 0 then 0 else if 0 < x then roundPos x else -roundPos (-x)

/-- Values of Go's `float64`. -/
inductive F64 where
  | finite (q : ℚ)
  | posInf
  | negInf
  | nan
deriving DecidableEq

/-- Conversion `float64(n)` of an `int`. -/
def F64.ofInt (n : ℤ) : F64 := .finite (roundF64 n)

/-- Conversion of an untyped numeric constant to `float64`. -/
def F64.ofConst (q : ℚ) : F64 := .finite (roundF64 q)

/-- Division `a / b`. Zero is the positive zero, which is the only zero `F64.ofInt` yields. -/
def F64.div : F64 → F64 → F64
  | .finite a, .finite b =>
    if b = 0 then (if a = 0 then .nan else if 0 < a then .posInf else .negInf)
    else .finite (roundF64 (a / b))
  | .finite _, .posInf => .finite 0
  | .finite _, .negInf => .finite 0
  | .posInf, .finite b => if 0 ≤ b then .posInf else .negInf
  | .negInf, .finite b => if 0 ≤ b then .negInf else .posInf
  | _, _ => .nan

/-- Comparison `a < b`; every comparison with NaN is false. -/
def F64.lt : F64 → F64 → Bool
  | .finite a, .finite b => decide (a < b)
  | .finite _, .posInf => true
  | .negInf, .finite _ => true
  | .negInf, .posInf => true
  | _, _ => false

/-! ## Data model -/

abbrev Bytes := List Nat

/-- A `uuid.UUID`, identified with its canonical text, which is what `.String()` returns. -/
structure UUID where
  canonical : String
deriving DecidableEq

/-- Modelled from the spec: the record type `database.Video` is declared outside the two
handler files. It has an identifier, an owning user, an optional thumbnail URL, an optional
video URL, and further fields the handlers never touch. -/
structure Video where
  ID : UUID
  UserID : UUID
  ThumbnailURL : Option String
  VideoURL : Option String
  rest : String
deriving DecidableEq

/-- The fields of `apiConfig` that the two handlers read. -/
structure apiConfig where
  jwtSecret : String
  assetsRoot : String
  s3Bucket : String
  s3CfDistribution : String

/-- One stream of the inspector's JSON output. -/
structure Stream where
  Width : ℤ
  Height : ℤ
  CodecType : String

structure FFProbeOutput where
  Streams : List Stream

/-- What a run of the remuxer leaves behind: the content at the output path, if it created
the file at all, and whether it exited with status zero. -/
structure RemuxOutcome where
  written : Option Bytes
  ok : Bool

/-- The part of an `*http.Request` the handlers look at. The size caps (`maxMemory`,
`uploadLimit`) only decide whether form parsing succeeds, which is an outcome here. -/
structure Request where
  pathVideoID : String
  bearerToken : Option String
  multipartOk : Bool
  formFile : String → Option (Bytes × String)

/-- Outcomes of the external calls. `none` or `false` is a non-nil `error`. -/
structure Env where
  uuidParse : String → Option UUID
  validateJWT : String → String → Option UUID
  getVideo : UUID → Option Video
  updateVideo : Video → Bool
  mimeTable : String → Option (List String)
  parseMediaType : String → Option String
  filepathJoin : String → String → String
  osCreate : String → Bool
  ioCopy : String → Bytes → Bytes × Bool
  createTemp : Option String
  ffprobe : String → Option Bytes
  jsonUnmarshal : Bytes → Option FFProbeOutput
  ffmpeg : String → String → RemuxOutcome
  osOpen : String → Bool
  seek : String → Bool
  putObject : String → String → Bool

/-- Modelled from the spec: the MIME-type→extension table behind `mime.ExtensionsByType` is
outside the repository. Its entry for `image/png` is the extension `.png`; what it holds for
any other content type (an error, no extension, or a list) is an outcome of the
environment. -/
def Env.extensionsByType (env : Env) (contentType : String) : Option (List String) :=
  if contentType = "image/png" then some [".png"] else env.mimeTable contentType

/-- Modelled from the spec: `respondWithError` and `respondWithJSON` live outside the two
handler files. A failure is a JSON error envelope with a status and a message, a success is
the JSON-serialised record with its status. -/
inductive Response where
  | error (code : Nat) (msg : String)
  | json (code : Nat) (payload : Video)
deriving DecidableEq

def Response.status : Response → Nat
  | .error code _ => code
  | .json code _ => code

/-- External calls in the order they are made, each with its outcome. -/
inductive Event where
  | GetVideo (id : UUID) (ok : Bool)
  | UpdateVideo (v : Video) (ok : Bool)
  | Create (path : String) (ok : Bool)
  | CopyToFile (path : String) (ok : Bool)
  | CreateTemp (path : String)
  | CopyToTemp (path : String) (ok : Bool)
  | Inspect (path : String) (ok : Bool)
  | Remux (input output : String) (ok : Bool)
  | Open (path : String) (ok : Bool)
  | Seek (path : String) (ok : Bool)
  | PutObject (bucket key contentType : String) (body : Bytes) (ok : Bool)
  | Close (path : String)
  | Remove (path : String)
deriving DecidableEq

/-- Position of an event in the pipeline
staged-locally, inspected, remuxed, uploaded, metadata-updated. -/
def Event.stage : Event → Option Nat
  | .CopyToTemp _ _ => some 1
  | .Inspect _ _ => some 2
  | .Remux _ _ _ => some 3
  | .PutObject _ _ _ _ _ => some 4
  | .UpdateVideo _ _ => some 5
  | _ => none

structure World where
  files : List (String × Bytes)
  trace : List Event
  response : Option Response

def World.start (disk : List (String × Bytes)) : World :=
  { files := disk, trace := [], response := none }

def emit (e : Event) (s : World) : World :=
  { s with trace := s.trace ++ [e] }

def writeFile (path : String) (content : Bytes) (s : World) : World :=
  { s with files := (path, content) :: s.files.filter (fun f => f.1 ≠ path) }

def removeFile (path : String) (s : World) : World :=
  { s with files := s.files.filter (fun f => f.1 ≠ path) }

def fileExists (path : String) (s : World) : Bool :=
  s.files.any (fun f => f.1 = path)

def readFile (path : String) (s : World) : Bytes :=
  match s.files.find? (fun f => f.1 = path) with
  | some f => f.2
  | none => []

/-- Modelled from the spec: writes the JSON error envelope with the given status. -/
def respondWithError (code : Nat) (msg : String) (s : World) : World :=
  { s with response := some (.error code msg) }

/-- Modelled from the spec: writes the record as JSON with the given status. -/
def respondWithJSON (code : Nat) (payload : Video) (s : World) : World :=
  { s with response := some (.json code payload) }

/-! ## handler_upload_video.go -/

/-- Lines 162-170 of `getVideoAspectRatio`: the three-way classification of the ratio. -/
def aspectLabel (ratio : F64) : String :=
  if F64.lt (F64.ofConst 1.75) ratio && F64.lt ratio (F64.ofConst 1.80) then "16:9"
  else if F64.lt (F64.ofConst 0.53) ratio && F64.lt ratio (F64.ofConst 0.58) then "9:16"
  else "other"

def getVideoAspectRatio (env : Env) (filePath : String) (s : World) :
    Except String String × World :=
  match env.ffprobe filePath with
  | none => (.error "couldn't execute command", emit (.Inspect filePath false) s)
  | some out =>
    match env.jsonUnmarshal out with
    | none => (.error "couldn't unmarshall", emit (.Inspect filePath false) s)
    | some p =>
      match p.Streams with
      | [] => (.error "no streams found in video", emit (.Inspect filePath false) s)
      | s0 :: _ =>
        (.ok (aspectLabel (F64.div (F64.ofInt s0.Width) (F64.ofInt s0.Height))),
          emit (.Inspect filePath true) s)

def processVideoForFastStart (env : Env) (filePath : String) (s : World) :
    Except String String × World :=
  let output_filepath := filePath ++ ".processing"
  let run := env.ffmpeg filePath output_filepath
  let s := emit (.Remux filePath output_filepath run.ok) s
  let s := match run.written with
    | some content => writeFile output_filepath content s
    | none => s
  if run.ok then (.ok output_filepath, s) else (.error "couldn't execute command", s)

/-- Lines 87-93 of `handlerUploadVideo`: the directory the storage key starts with. -/
def orientationDir (ratio : String) : String :=
  let dir := "other/"
  let dir := if ratio = "16:9" then "landscape/" else dir
  let dir := if ratio = "9:16" then "portrait/" else dir
  dir

/-- Lines 107-131 of `handlerUploadVideo`, run while both temporary files are open. -/
def uploadOpened (cfg : apiConfig) (env : Env) (videoID userID : UUID) (video : Video)
    (mediaType dir tempName output_filepath : String) (s : World) : World :=
  let s := emit (.Seek tempName (env.seek tempName)) s
  if !env.seek tempName then
    respondWithError 500 "Could not reset file pointer" s
  else
    let key := dir ++ userID.canonical ++ "/" ++ videoID.canonical ++ ".mp4"
    let s := emit (.PutObject cfg.s3Bucket key mediaType (readFile output_filepath s)
      (env.putObject cfg.s3Bucket key)) s
    if !env.putObject cfg.s3Bucket key then
      respondWithError 500 "Error uploading file to S3" s
    else
      let url := "http://" ++ cfg.s3CfDistribution ++ "/" ++ key
      let video := { video with VideoURL := some url }
      let s := emit (.UpdateVideo video (env.updateVideo video)) s
      if !env.updateVideo video then
        respondWithError 500 "Couldn't update video" s
      else s

/-- Lines 78-106 of `handlerUploadVideo`, run after the raw temporary file was created and
its removal deferred. -/
def uploadStaged (cfg : apiConfig) (env : Env) (videoID userID : UUID) (video : Video)
    (mediaType : String) (file : Bytes) (tempName : String) (s : World) : World :=
  let copied := env.ioCopy tempName file
  let s := emit (.CopyToTemp tempName copied.2) (writeFile tempName copied.1 s)
  if !copied.2 then
    respondWithError 500 "Could not write file to disk" s
  else
    match getVideoAspectRatio env tempName s with
    | (.error _, s) => respondWithError 500 "Couldn't get aspect ratio" s
    | (.ok ratio, s) =>
      let dir := orientationDir ratio
      match processVideoForFastStart env tempName s with
      | (.error _, s) => s
      | (.ok output_filepath, s) =>
        let opened := fileExists output_filepath s && env.osOpen output_filepath
        let s := emit (.Open output_filepath opened) s
        if !opened then s
        else
          let s := uploadOpened cfg env videoID userID video mediaType dir tempName
            output_filepath s
          -- deferred: out_file.Close(), then os.Remove(out_file.Name())
          removeFile output_filepath
            (emit (.Remove output_filepath) (emit (.Close output_filepath) s))

def handlerUploadVideo (cfg : apiConfig) (env : Env) (r : Request) (s : World) : World :=
  match env.uuidParse r.pathVideoID with
  | none => respondWithError 400 "Invalid ID" s
  | some videoID =>
    match r.bearerToken with
    | none => respondWithError 401 "Couldn't find JWT" s
    | some token =>
      match env.validateJWT token cfg.jwtSecret with
      | none => respondWithError 401 "Couldn't validate JWT" s
      | some userID =>
        match env.getVideo videoID with
        | none =>
          respondWithError 500 "Couldn't find video" (emit (.GetVideo videoID false) s)
        | some video =>
          let s := emit (.GetVideo videoID true) s
          if video.UserID ≠ userID then
            respondWithError 401 "Not authorized to update this video" s
          else
            match r.formFile "video" with
            | none => respondWithError 400 "Unable to parse form file" s
            | some (file, contentType) =>
              match env.parseMediaType contentType with
              | none => respondWithError 400 "Invalid Content-Type" s
              | some mediaType =>
                if mediaType ≠ "video/mp4" then
                  respondWithError 400 "Invalid file type, only MP4 is allowed" s
                else
                  match env.createTemp with
                  | none => respondWithError 500 "Could not create temp file" s
                  | some tempName =>
                    let s := emit (.CreateTemp tempName) (writeFile tempName [] s)
                    let s := uploadStaged cfg env videoID userID video mediaType file
                      tempName s
                    -- deferred: tempFile.Close(), then os.Remove(tempFile.Name())
                    removeFile tempName (emit (.Remove tempName) (emit (.Close tempName) s))

/-! ## handler_upload_thumbnail.go -/

def handlerUploadThumbnail (cfg : apiConfig) (env : Env) (r : Request) (s : World) : World :=
  match env.uuidParse r.pathVideoID with
  | none => respondWithError 400 "Invalid ID" s
  | some videoID =>
    match r.bearerToken with
    | none => respondWithError 401 "Couldn't find JWT" s
    | some token =>
      match env.validateJWT token cfg.jwtSecret with
      | none => respondWithError 401 "Couldn't validate JWT" s
      | some userID =>
        if !r.multipartOk then
          respondWithError 400 "Unable to parse form" s
        else
          match r.formFile "thumbnail" with
          | none => respondWithError 400 "Unable to parse form file" s
          | some (file, contentType) =>
            match env.getVideo videoID with
            | none =>
              respondWithError 401 "Couldn't get video" (emit (.GetVideo videoID false) s)
            | some videoMetadata =>
              let s := emit (.GetVideo videoID true) s
              if videoMetadata.UserID ≠ userID then
                respondWithError 401 "User is not video owner" s
              else
                match env.extensionsByType contentType with
                | none => respondWithError 400 "Invalid file extension" s
                | some [] => respondWithError 400 "Invalid file extension" s
                | some (ext :: _) =>
                  let filename := videoID.canonical ++ ext
                  let path := env.filepathJoin cfg.assetsRoot filename
                  if !env.osCreate path then
                    respondWithError 500 "Error writing file" (emit (.Create path false) s)
                  else
                    let s := emit (.Create path true) (writeFile path [] s)
                    -- io.Copy(new_file, file): the returned error is dropped
                    let copied := env.ioCopy path file
                    let s := emit (.CopyToFile path copied.2) (writeFile path copied.1 s)
                    let url := "/assets/" ++ filename
                    let videoMetadata := { videoMetadata with ThumbnailURL := some url }
                    let s := emit (.UpdateVideo videoMetadata (env.updateVideo videoMetadata)) s
                    let s :=
                      if !env.updateVideo videoMetadata then
                        respondWithError 500 "Couldn't update video" s
                      else respondWithJSON 200 videoMetadata s
                    -- deferred: new_file.Close()
                    emit (.Close path) s

/-! ## Concrete requests and environments -/

def demoCfg : apiConfig :=
  { jwtSecret := "secret", assetsRoot := "/srv/assets", s3Bucket := "tubely",
    s3CfDistribution := "cdn.example.com" }

def demoVideoID : UUID := ⟨"7d3f2a10-5b1c-4e0a-9c2d-1f6e8a4b0c55"⟩

def demoOwner : UUID := ⟨"0b9a6c1e-2d47-4f3a-8e15-6c7d9e0f1a22"⟩

def demoStranger : UUID := ⟨"c4e1d7b2-9a30-4c68-b5f1-3e2a7d6c8b90"⟩

def demoVideo : Video :=
  { ID := demoVideoID, UserID := demoOwner, ThumbnailURL := none, VideoURL := none,
    rest := "title=demo" }

/-- A request by the owner carrying both form fields. -/
def demoRequest : Request :=
  { pathVideoID := "7d3f2a10-5b1c-4e0a-9c2d-1f6e8a4b0c55",
    bearerToken := some "owner-token",
    multipartOk := true,
    formFile := fun name =>
      if name = "thumbnail" then some ([137, 80, 78, 71], "image/png")
      else if name = "video" then some ([0, 0, 0, 24], "video/mp4")
      else none }

/-- An environment in which every external call succeeds and the inspector reports a first
stream of `w` by `h`. -/
def demoEnvOf (w h : ℤ) : Env :=
  { uuidParse := fun t =>
      if t = "7d3f2a10-5b1c-4e0a-9c2d-1f6e8a4b0c55" then some demoVideoID else none,
    validateJWT := fun token secret =>
      if secret = "secret" then
        if token = "owner-token" then some demoOwner
        else if token = "stranger-token" then some demoStranger
        else none
      else none,
    getVideo := fun id => if id = demoVideoID then some demoVideo else none,
    updateVideo := fun _ => true,
    mimeTable := fun t => if t = "image/jpeg" then some [".jpe", ".jpeg", ".jpg"] else some [],
    parseMediaType := fun t => some t,
    filepathJoin := fun dir name => dir ++ "/" ++ name,
    osCreate := fun _ => true,
    ioCopy := fun _ content => (content, true),
    createTemp := some "/tmp/tubely-upload.mp4-1",
    ffprobe := fun _ => some [123, 125],
    jsonUnmarshal := fun _ => some ⟨[⟨w, h, "video"⟩]⟩,
    ffmpeg := fun _ _ => { written := some [0, 0, 0, 32], ok := true },
    osOpen := fun _ => true,
    seek := fun _ => true,
    putObject := fun _ _ => true }

def demoEnv : Env := demoEnvOf 1920 1080

/-- The owner's request with another user's token. -/
def demoStrangerRequest : Request := { demoRequest with bearerToken := some "stranger-token" }

/-- A video upload sent with another user's token: the form carries the field `video`
only. -/
def demoStrangerVideoOnly : Request :=
  { pathVideoID := "7d3f2a10-5b1c-4e0a-9c2d-1f6e8a4b0c55",
    bearerToken := some "stranger-token",
    multipartOk := true,
    formFile := fun name => if name = "video" then some ([0, 0, 0, 24], "video/mp4") else none }

/-- The owner's request without an Authorization header. -/
def demoAnonymous : Request := { demoRequest with bearerToken := none }

/-- A request with neither a well-formed video id nor an Authorization header. -/
def demoAnonymousBadID : Request :=
  { demoRequest with pathVideoID := "not-a-uuid", bearerToken := none }

/-- The inspector exits with an error. -/
def demoEnvProbeFails : Env := { demoEnv with ffprobe := fun _ => none }

/-- The remuxer succeeds, opening its output fails. -/
def demoEnvOpenFails : Env := { demoEnv with osOpen := fun _ => false }

/-- The remuxer exits with an error after it has created its output file. -/
def demoEnvRemuxFails : Env :=
  { demoEnv with ffmpeg := fun _ _ => { written := some [0, 0], ok := false } }

/-- Copying stops with an error after the first byte. -/
def demoEnvCopyFails : Env := { demoEnv with ioCopy := fun _ _ => ([137], false) }

/-- Creating the thumbnail file fails. -/
def demoEnvCreateFails : Env := { demoEnv with osCreate := fun _ => false }

/-! ## Trace shapes -/

/-- Events `uploadOpened` appends: the upload stage and the metadata stage. -/
inductive UploadTail (t : String) : List Event → Prop where
  | seekFailed : UploadTail t [.Seek t false]
  | putFailed (b k ct : String) (body : Bytes) :
      UploadTail t [.Seek t true, .PutObject b k ct body false]
  | updated (b k ct : String) (body : Bytes) (v : Video) (up : Bool) :
      UploadTail t [.Seek t true, .PutObject b k ct body true, .UpdateVideo v up]

/-- Events `uploadStaged` appends, one shape per exit path. -/
inductive StagedTail (t : String) : List Event → Prop where
  | copyFailed : StagedTail t [.CopyToTemp t false]
  | inspectFailed : StagedTail t [.CopyToTemp t true, .Inspect t false]
  | remuxFailed (o : String) :
      StagedTail t [.CopyToTemp t true, .Inspect t true, .Remux t o false]
  | openFailed (o : String) :
      StagedTail t [.CopyToTemp t true, .Inspect t true, .Remux t o true, .Open o false]
  | opened (o : String) (tail : List Event) (h : UploadTail t tail) :
      StagedTail t
        ([.CopyToTemp t true, .Inspect t true, .Remux t o true, .Open o true] ++ tail ++
          [.Close o, .Remove o])

/-- Traces of `handlerUploadVideo`, one shape per exit path. -/
inductive VideoTrace : List Event → Prop where
  | rejected : VideoTrace []
  | lookup (id : UUID) (ok : Bool) : VideoTrace [.GetVideo id ok]
  | staged (id : UUID) (t : String) (tail : List Event) (h : StagedTail t tail) :
      VideoTrace ([.GetVideo id true, .CreateTemp t] ++ tail ++ [.Close t, .Remove t])

/-- Failure of an earlier stage leaves no event of a later stage, and the stage events
occur in pipeline order. -/
def StagesInOrder (tr : List Event) : Prop :=
  (tr.filterMap Event.stage).Pairwise (fun a b => a < b) ∧
    (∀ p ok, Event.Inspect p ok ∈ tr → Event.CopyToTemp p true ∈ tr) ∧
    (∀ i o ok, Event.Remux i o ok ∈ tr →
      Event.CopyToTemp i true ∈ tr ∧ Event.Inspect i true ∈ tr) ∧
    (∀ b k ct body ok, Event.PutObject b k ct body ok ∈ tr →
      ∃ t o, Event.CopyToTemp t true ∈ tr ∧ Event.Inspect t true ∈ tr ∧
        Event.Remux t o true ∈ tr) ∧
    (∀ v ok, Event.UpdateVideo v ok ∈ tr → ∃ b k ct body, Event.PutObject b k ct body true ∈ tr)

/-! ## Rounding lemmas -/

theorem natLog2_bounds (n : ℕ) (hn : n ≠ 0) : 2 ^ Nat.log2 n ≤ n ∧ n < 2 ^ (Nat.log2 n + 1) :=
  ⟨Nat.log2_self_le hn, Nat.lt_log2_self⟩

theorem ilog2_spec (x : ℚ) (hx : 0 < x) :
    (2 : ℚ) ^ ilog2 x ≤ x ∧ x < (2 : ℚ) ^ (ilog2 x + 1) := by
  have hnum : 0 < x.num := Rat.num_pos.mpr hx
  have hn0 : x.num.natAbs ≠ 0 := by
    intro h; rw [Int.natAbs_eq_zero] at h; omega
  have hd0 : x.den ≠ 0 := x.den_nz
  obtain ⟨hn1, hn2⟩ := natLog2_bounds _ hn0
  obtain ⟨hd1, hd2⟩ := natLog2_bounds _ hd0
  have hxe : x = (x.num.natAbs : ℚ) / (x.den : ℚ) := by
    have h1 : (x.num.natAbs : ℚ) = (x.num : ℚ) := by
      rw [Nat.cast_natAbs, abs_of_pos hnum]
    rw [h1, Rat.num_div_den]
  have hdpos : (0 : ℚ) < x.den := by exact_mod_cast Nat.pos_of_ne_zero hd0
  have hn1q : (2 : ℚ) ^ (Nat.log2 x.num.natAbs) ≤ (x.num.natAbs : ℚ) := by exact_mod_cast hn1
  have hn2q : (x.num.natAbs : ℚ) < (2 : ℚ) ^ (Nat.log2 x.num.natAbs + 1) := by exact_mod_cast hn2
  have hd1q : (2 : ℚ) ^ (Nat.log2 x.den) ≤ (x.den : ℚ) := by exact_mod_cast hd1
  have hd2q : (x.den : ℚ) < (2 : ℚ) ^ (Nat.log2 x.den + 1) := by exact_mod_cast hd2
  set a := Nat.log2 x.num.natAbs with ha
  set b := Nat.log2 x.den with hb
  have h2 : (2 : ℚ) ≠ 0 := by norm_num
  have hpa : (0 : ℚ) < 2 ^ a := by positivity
  have hpb : (0 : ℚ) < 2 ^ b := by positivity
  -- upper and lower estimate of x by powers of two
  have hup : x < (2 : ℚ) ^ ((a : ℤ) - (b : ℤ) + 1) := by
    have e : (2 : ℚ) ^ ((a : ℤ) - (b : ℤ) + 1) = 2 ^ (a + 1) / 2 ^ b := by
      rw [show (a : ℤ) - (b : ℤ) + 1 = ((a + 1 : ℕ) : ℤ) - (b : ℤ) by push_cast; ring,
        zpow_sub₀ h2, zpow_natCast, zpow_natCast]
    rw [e, hxe, div_lt_div_iff₀ hdpos hpb]
    calc (x.num.natAbs : ℚ) * 2 ^ b < 2 ^ (a + 1) * 2 ^ b := by
          exact mul_lt_mul_of_pos_right hn2q hpb
      _ ≤ 2 ^ (a + 1) * (x.den : ℚ) := by
          exact mul_le_mul_of_nonneg_left hd1q (by positivity)
  have hlo : (2 : ℚ) ^ ((a : ℤ) - (b : ℤ) - 1) ≤ x := by
    have e : (2 : ℚ) ^ ((a : ℤ) - (b : ℤ) - 1) = 2 ^ a / 2 ^ (b + 1) := by
      rw [show (a : ℤ) - (b : ℤ) - 1 = (a : ℤ) - ((b + 1 : ℕ) : ℤ) by push_cast; ring,
        zpow_sub₀ h2, zpow_natCast, zpow_natCast]
    rw [e, hxe, div_le_div_iff₀ (by positivity) hdpos]
    calc (2 : ℚ) ^ a * (x.den : ℚ) ≤ 2 ^ a * 2 ^ (b + 1) := by
          exact mul_le_mul_of_nonneg_left hd2q.le (by positivity)
      _ ≤ (x.num.natAbs : ℚ) * 2 ^ (b + 1) := by
          exact mul_le_mul_of_nonneg_right hn1q (by positivity)
  unfold ilog2
  simp only
  split_ifs with hc
  · exact ⟨hc, hup⟩
  · refine ⟨hlo, ?_⟩
    rw [sub_add_cancel]
    exact not_le.mp hc

theorem ilog2_unique (x : ℚ) (e : ℤ) (h1 : (2 : ℚ) ^ e ≤ x) (h2 : x < (2 : ℚ) ^ (e + 1)) :
    ilog2 x = e := by
  have hx : 0 < x := lt_of_lt_of_le (by positivity) h1
  obtain ⟨s1, s2⟩ := ilog2_spec x hx
  have one_lt : (1 : ℚ) < 2 := by norm_num
  have a1 : e < ilog2 x + 1 := (zpow_lt_zpow_iff_right₀ one_lt).mp (lt_of_le_of_lt h1 s2)
  have a2 : ilog2 x < e + 1 := (zpow_lt_zpow_iff_right₀ one_lt).mp (lt_of_le_of_lt s1 h2)
  omega

theorem roundHalfEven_floor_or (m : ℚ) :
    roundHalfEven m = ⌊m⌋ ∨ roundHalfEven m = ⌊m⌋ + 1 := by
  unfold roundHalfEven
  split_ifs <;> simp

theorem roundHalfEven_intCast (k : ℤ) : roundHalfEven (k : ℚ) = k := by
  unfold roundHalfEven
  simp

theorem roundHalfEven_eq_of_near (m : ℚ) (k : ℤ) (h1 : (k : ℚ) - 1 / 2 < m)
    (h2 : m < (k : ℚ) + 1 / 2) : roundHalfEven m = k := by
  have hfl : ⌊m⌋ = k ∨ ⌊m⌋ = k - 1 := by
    have a1 : k - 1 ≤ ⌊m⌋ := by
      apply Int.le_floor.mpr
      push_cast
      linarith
    have a2 : ⌊m⌋ < k + 1 := by
      apply Int.floor_lt.mpr
      push_cast
      linarith
    omega
  unfold roundHalfEven
  rcases hfl with h | h
  · rw [h]
    rw [if_pos (by linarith)]
  · rw [h]
    have : ¬ (m - ((k - 1 : ℤ) : ℚ) < 1 / 2) := by push_cast; linarith
    rw [if_neg this, if_pos (by push_cast; linarith)]
    ring

theorem roundHalfEven_lower (m : ℚ) : m - 1 / 2 ≤ (roundHalfEven m : ℚ) := by
  have hf : (⌊m⌋ : ℚ) ≤ m := Int.floor_le m
  have hl : m < (⌊m⌋ : ℚ) + 1 := Int.lt_floor_add_one m
  unfold roundHalfEven
  split_ifs with h1 h2 h3 <;> push_cast <;> linarith

theorem roundHalfEven_upper (m : ℚ) : (roundHalfEven m : ℚ) ≤ m + 1 / 2 := by
  have hf : (⌊m⌋ : ℚ) ≤ m := Int.floor_le m
  have hl : m < (⌊m⌋ : ℚ) + 1 := Int.lt_floor_add_one m
  unfold roundHalfEven
  split_ifs with h1 h2 h3 <;> push_cast <;> linarith

theorem roundHalfEven_mono {m n : ℚ} (h : m ≤ n) : roundHalfEven m ≤ roundHalfEven n := by
  have hfl : ⌊m⌋ ≤ ⌊n⌋ := Int.floor_mono h
  rcases lt_or_eq_of_le hfl with hlt | heq
  · have a1 : roundHalfEven m ≤ ⌊m⌋ + 1 := by
      rcases roundHalfEven_floor_or m with h | h <;> omega
    have a2 : ⌊n⌋ ≤ roundHalfEven n := by
      rcases roundHalfEven_floor_or n with h | h <;> omega
    omega
  · unfold roundHalfEven
    rw [← heq]
    split_ifs <;> first | omega | (exfalso; linarith)

theorem roundPos_eval (x : ℚ) (e k : ℤ) (h1 : (2 : ℚ) ^ e ≤ x) (h2 : x < (2 : ℚ) ^ (e + 1))
    (hk : roundHalfEven (x / 2 ^ (e - 52)) = k) : roundPos x = (k : ℚ) * 2 ^ (e - 52) := by
  unfold roundPos
  rw [ilog2_unique x e h1 h2, hk]

theorem scaled_bounds (x : ℚ) (hx : 0 < x) :
    (2 : ℚ) ^ (52 : ℕ) ≤ x / 2 ^ (ilog2 x - 52) ∧ x / 2 ^ (ilog2 x - 52) ≤ (2 : ℚ) ^ (53 : ℕ) := by
  obtain ⟨s1, s2⟩ := ilog2_spec x hx
  have h2 : (2 : ℚ) ≠ 0 := by norm_num
  have hp : (0 : ℚ) < 2 ^ (ilog2 x - 52) := by positivity
  have e1 : (2 : ℚ) ^ (52 : ℕ) * 2 ^ (ilog2 x - 52) = 2 ^ ilog2 x := by
    rw [← zpow_natCast, ← zpow_add₀ h2]; congr 1; push_cast; ring
  have e2 : (2 : ℚ) ^ (53 : ℕ) * 2 ^ (ilog2 x - 52) = 2 ^ (ilog2 x + 1) := by
    rw [← zpow_natCast, ← zpow_add₀ h2]; congr 1; push_cast; ring
  constructor
  · rw [le_div_iff₀ hp, e1]; exact s1
  · rw [div_le_iff₀ hp, e2]; exact s2.le

theorem roundPos_bounds (x : ℚ) (hx : 0 < x) :
    (2 : ℚ) ^ ilog2 x ≤ roundPos x ∧ roundPos x ≤ (2 : ℚ) ^ (ilog2 x + 1) := by
  obtain ⟨m1, m2⟩ := scaled_bounds x hx
  have h2 : (2 : ℚ) ≠ 0 := by norm_num
  have hp : (0 : ℚ) < 2 ^ (ilog2 x - 52) := by positivity
  have e1 : (2 : ℚ) ^ (52 : ℕ) * 2 ^ (ilog2 x - 52) = 2 ^ ilog2 x := by
    rw [← zpow_natCast, ← zpow_add₀ h2]; congr 1; push_cast; ring
  have e2 : (2 : ℚ) ^ (53 : ℕ) * 2 ^ (ilog2 x - 52) = 2 ^ (ilog2 x + 1) := by
    rw [← zpow_natCast, ← zpow_add₀ h2]; congr 1; push_cast; ring
  have r1 : ((2 ^ (52 : ℕ) : ℤ) : ℚ) ≤ (roundHalfEven (x / 2 ^ (ilog2 x - 52)) : ℚ) := by
    have := roundHalfEven_mono (m := ((2 ^ (52 : ℕ) : ℤ) : ℚ)) (n := x / 2 ^ (ilog2 x - 52))
      (by push_cast; exact m1)
    rw [roundHalfEven_intCast] at this
    exact_mod_cast this
  have r2 : (roundHalfEven (x / 2 ^ (ilog2 x - 52)) : ℚ) ≤ ((2 ^ (53 : ℕ) : ℤ) : ℚ) := by
    have := roundHalfEven_mono (m := x / 2 ^ (ilog2 x - 52)) (n := ((2 ^ (53 : ℕ) : ℤ) : ℚ))
      (by push_cast; exact m2)
    rw [roundHalfEven_intCast] at this
    exact_mod_cast this
  push_cast at r1 r2
  unfold roundPos
  constructor
  · rw [← e1]; exact mul_le_mul_of_nonneg_right r1 hp.le
  · rw [← e2]; exact mul_le_mul_of_nonneg_right r2 hp.le

theorem roundPos_pos (x : ℚ) (hx : 0 < x) : 0 < roundPos x :=
  lt_of_lt_of_le (by positivity) (roundPos_bounds x hx).1

theorem roundPos_mono {x y : ℚ} (hx : 0 < x) (hxy : x ≤ y) : roundPos x ≤ roundPos y := by
  have hy : 0 < y := lt_of_lt_of_le hx hxy
  obtain ⟨sx1, sx2⟩ := ilog2_spec x hx
  obtain ⟨sy1, sy2⟩ := ilog2_spec y hy
  have one_lt : (1 : ℚ) < 2 := by norm_num
  have hle : ilog2 x < ilog2 y + 1 :=
    (zpow_lt_zpow_iff_right₀ one_lt).mp (lt_of_le_of_lt (sx1.trans hxy) sy2)
  rcases lt_or_eq_of_le (Int.lt_add_one_iff.mp hle) with hlt | heq
  · calc roundPos x ≤ (2 : ℚ) ^ (ilog2 x + 1) := (roundPos_bounds x hx).2
      _ ≤ (2 : ℚ) ^ ilog2 y := zpow_le_zpow_right₀ one_lt.le (by omega)
      _ ≤ roundPos y := (roundPos_bounds y hy).1
  · unfold roundPos
    rw [heq]
    have hp : (0 : ℚ) < 2 ^ (ilog2 y - 52) := by positivity
    apply mul_le_mul_of_nonneg_right _ hp.le
    have : roundHalfEven (x / 2 ^ (ilog2 y - 52)) ≤ roundHalfEven (y / 2 ^ (ilog2 y - 52)) :=
      roundHalfEven_mono (div_le_div_of_nonneg_right hxy hp.le)
    exact_mod_cast this

theorem roundF64_mono {x y : ℚ} (hxy : x ≤ y) : roundF64 x ≤ roundF64 y := by
  unfold roundF64
  rcases lt_trichotomy x 0 with hx | hx | hx <;> rcases lt_trichotomy y 0 with hy | hy | hy
  · rw [if_neg hx.ne, if_neg (not_lt.mpr hx.le), if_neg hy.ne, if_neg (not_lt.mpr hy.le)]
    have := roundPos_mono (x := -y) (y := -x) (by linarith) (by linarith)
    linarith
  · rw [if_neg hx.ne, if_neg (not_lt.mpr hx.le), if_pos hy]
    have := roundPos_pos (-x) (by linarith)
    linarith
  · rw [if_neg hx.ne, if_neg (not_lt.mpr hx.le), if_neg hy.ne', if_pos hy]
    have := roundPos_pos (-x) (by linarith)
    have := roundPos_pos y hy
    linarith
  · exfalso; linarith
  · rw [if_pos hx, if_pos hy]
  · rw [if_pos hx, if_neg hy.ne', if_pos hy]
    exact (roundPos_pos y hy).le
  · exfalso; linarith
  · exfalso; linarith
  · rw [if_neg hx.ne', if_pos hx, if_neg hy.ne', if_pos hy]
    exact roundPos_mono hx hxy

theorem roundPos_error (x : ℚ) (hx : 0 < x) :
    x - x / 2 ^ (53 : ℕ) ≤ roundPos x ∧ roundPos x ≤ x + x / 2 ^ (53 : ℕ) := by
  obtain ⟨s1, _⟩ := ilog2_spec x hx
  have h2 : (2 : ℚ) ≠ 0 := by norm_num
  have hp : (0 : ℚ) < 2 ^ (ilog2 x - 52) := by positivity
  have lo := roundHalfEven_lower (x / 2 ^ (ilog2 x - 52))
  have up := roundHalfEven_upper (x / 2 ^ (ilog2 x - 52))
  have e1 : (2 : ℚ) ^ (ilog2 x - 52) = 2 ^ ilog2 x / 2 ^ (52 : ℕ) := by
    rw [zpow_sub₀ h2]; norm_cast
  have hhalf : (2 : ℚ) ^ (ilog2 x - 52) / 2 ≤ x / 2 ^ (53 : ℕ) := by
    rw [e1]
    have : (2 : ℚ) ^ ilog2 x / 2 ^ (52 : ℕ) / 2 = 2 ^ ilog2 x / 2 ^ (53 : ℕ) := by
      rw [div_div]; norm_num
    rw [this]
    exact div_le_div_of_nonneg_right s1 (by positivity)
  have hx' : x / 2 ^ (ilog2 x - 52) * 2 ^ (ilog2 x - 52) = x := div_mul_cancel₀ x hp.ne'
  unfold roundPos
  constructor
  · have := mul_le_mul_of_nonneg_right lo hp.le
    rw [sub_mul, hx'] at this
    linarith
  · have := mul_le_mul_of_nonneg_right up hp.le
    rw [add_mul, hx'] at this
    linarith

theorem roundF64_eval (x : ℚ) (e k : ℤ) (h1 : (2 : ℚ) ^ e ≤ x) (h2 : x < (2 : ℚ) ^ (e + 1))
    (n1 : (k : ℚ) - 1 / 2 < x / 2 ^ (e - 52)) (n2 : x / 2 ^ (e - 52) < (k : ℚ) + 1 / 2) :
    roundF64 x = (k : ℚ) * 2 ^ (e - 52) := by
  have hx : 0 < x := lt_of_lt_of_le (by positivity) h1
  unfold roundF64
  rw [if_neg hx.ne', if_pos hx]
  exact roundPos_eval x e k h1 h2 (roundHalfEven_eq_of_near _ k n1 n2)

theorem roundF64_natCast (n : ℕ) (hn : n < 2 ^ 53) : roundF64 (n : ℚ) = n := by
  rcases Nat.eq_zero_or_pos n with h0 | hpos
  · subst h0; simp [roundF64]
  have hx : (0 : ℚ) < n := by exact_mod_cast hpos
  unfold roundF64
  rw [if_neg hx.ne', if_pos hx]
  obtain ⟨s1, _⟩ := ilog2_spec (n : ℚ) hx
  have one_lt : (1 : ℚ) < 2 := by norm_num
  have hlt : (2 : ℚ) ^ ilog2 (n : ℚ) < (2 : ℚ) ^ (53 : ℤ) := by
    refine lt_of_le_of_lt s1 ?_
    have : (n : ℚ) < ((2 ^ 53 : ℕ) : ℚ) := by exact_mod_cast hn
    rw [show (53 : ℤ) = ((53 : ℕ) : ℤ) by rfl, zpow_natCast]
    exact_mod_cast this
  have he : ilog2 (n : ℚ) < 53 := (zpow_lt_zpow_iff_right₀ one_lt).mp hlt
  obtain ⟨k, hk⟩ : ∃ k : ℕ, (k : ℤ) = 52 - ilog2 (n : ℚ) := ⟨(52 - ilog2 (n : ℚ)).toNat, by omega⟩
  have hs : ilog2 (n : ℚ) - 52 = -(k : ℤ) := by omega
  have h2 : (2 : ℚ) ≠ 0 := by norm_num
  unfold roundPos
  rw [hs, zpow_neg, zpow_natCast, div_inv_eq_mul]
  have : (n : ℚ) * 2 ^ k = (((n * 2 ^ k : ℕ) : ℤ) : ℚ) := by push_cast; ring
  rw [this, roundHalfEven_intCast]
  push_cast
  field_simp

theorem roundF64_neg (x : ℚ) : roundF64 (-x) = -roundF64 x := by
  unfold roundF64
  rcases lt_trichotomy x 0 with hx | hx | hx
  · rw [if_neg (by linarith), if_pos (by linarith), if_neg hx.ne, if_neg (not_lt.mpr hx.le)]
    simp
  · subst hx; simp
  · rw [if_neg (by linarith), if_neg (by linarith), if_neg hx.ne', if_pos hx, neg_neg]

theorem roundF64_intCast (n : ℤ) (h1 : -2 ^ 53 < n) (h2 : n < 2 ^ 53) :
    roundF64 (n : ℚ) = n := by
  rcases le_or_lt 0 n with hn | hn
  · obtain ⟨k, rfl⟩ := Int.eq_ofNat_of_zero_le hn
    have : k < 2 ^ 53 := by exact_mod_cast h2
    simpa using roundF64_natCast k this
  · obtain ⟨k, hk⟩ := Int.eq_ofNat_of_zero_le (show 0 ≤ -n by omega)
    have hk' : k < 2 ^ 53 := by
      have : (k : ℤ) < 2 ^ 53 := by omega
      exact_mod_cast this
    have e : (n : ℚ) = -((k : ℕ) : ℚ) := by
      have : n = -(k : ℤ) := by omega
      rw [this]; push_cast; ring
    rw [e, roundF64_neg, roundF64_natCast k hk']

theorem c175_eq : roundF64 (7 / 4) = 7 / 4 := by
  have := roundF64_eval (7 / 4) 0 7881299347898368 (by norm_num) (by norm_num)
    (by norm_num) (by norm_num)
  rw [this]; norm_num

theorem c180_eq : roundF64 (9 / 5) = 8106479329266893 / 4503599627370496 := by
  have := roundF64_eval (9 / 5) 0 8106479329266893 (by norm_num) (by norm_num)
    (by norm_num) (by norm_num)
  rw [this]; norm_num

theorem c053_eq : roundF64 (53 / 100) = 4773815605012726 / 9007199254740992 := by
  have := roundF64_eval (53 / 100) (-1) 4773815605012726 (by norm_num) (by norm_num)
    (by norm_num) (by norm_num)
  rw [this]; norm_num

theorem c058_eq : roundF64 (29 / 50) = 5224175567749775 / 9007199254740992 := by
  have := roundF64_eval (29 / 50) (-1) 5224175567749775 (by norm_num) (by norm_num)
    (by norm_num) (by norm_num)
  rw [this]; norm_num

theorem round_above_of_gt (w h : ℤ) (p q : ℕ) (c : ℚ) (hq : 0 < q) (hh : 0 < h)
    (hb : h ≤ 2 ^ 46) (hc : roundF64 c = c) (hpc : (p : ℚ) / q ≤ c)
    (hgap : (c - (p : ℚ) / q) * q * 2 ^ 46 ≤ 1) (hr : (p : ℚ) / q < (w : ℚ) / h) :
    c ≤ roundF64 ((w : ℚ) / h) := by
  have hhq : (0 : ℚ) < h := by exact_mod_cast hh
  have hqq : (0 : ℚ) < q := by exact_mod_cast hq
  have hbq : (h : ℚ) ≤ 2 ^ 46 := by exact_mod_cast hb
  have h1 : (p : ℚ) * h < (w : ℚ) * q := by
    rwa [div_lt_div_iff₀ hqq hhq] at hr
  have h2 : (p : ℤ) * h + 1 ≤ w * q := by
    have : (p : ℤ) * h < w * q := by exact_mod_cast h1
    omega
  have h3 : (p : ℚ) * h + 1 ≤ (w : ℚ) * q := by exact_mod_cast h2
  have h4 : (c - (p : ℚ) / q) * q * h ≤ 1 := by
    have hnn : 0 ≤ (c - (p : ℚ) / q) * q := mul_nonneg (by linarith) hqq.le
    calc (c - (p : ℚ) / q) * q * h ≤ (c - (p : ℚ) / q) * q * 2 ^ 46 :=
          mul_le_mul_of_nonneg_left hbq hnn
      _ ≤ 1 := hgap
  have h5 : c ≤ (w : ℚ) / h := by
    rw [le_div_iff₀ hhq]
    have e : (c - (p : ℚ) / q) * q * h = c * h * q - p * h := by
      field_simp
      ring
    rw [e] at h4
    have : c * h * q ≤ w * q := by linarith
    exact le_of_mul_le_mul_right this hqq
  rw [← hc]
  exact roundF64_mono h5

theorem round_below_of_lt (w h : ℤ) (p q : ℕ) (c : ℚ) (hq : 0 < q) (hh : 0 < h)
    (hb : h ≤ 2 ^ 46) (hc : roundF64 c = c) (hpc : c ≤ (p : ℚ) / q)
    (hgap : ((p : ℚ) / q - c) * q * 2 ^ 46 ≤ 1) (hr : (w : ℚ) / h < (p : ℚ) / q) :
    roundF64 ((w : ℚ) / h) ≤ c := by
  have hhq : (0 : ℚ) < h := by exact_mod_cast hh
  have hqq : (0 : ℚ) < q := by exact_mod_cast hq
  have hbq : (h : ℚ) ≤ 2 ^ 46 := by exact_mod_cast hb
  have h1 : (w : ℚ) * q < (p : ℚ) * h := by
    rwa [div_lt_div_iff₀ hhq hqq] at hr
  have h2 : w * q + 1 ≤ (p : ℤ) * h := by
    have : w * q < (p : ℤ) * h := by exact_mod_cast h1
    omega
  have h3 : (w : ℚ) * q + 1 ≤ (p : ℚ) * h := by exact_mod_cast h2
  have h4 : ((p : ℚ) / q - c) * q * h ≤ 1 := by
    have hnn : 0 ≤ ((p : ℚ) / q - c) * q := mul_nonneg (by linarith) hqq.le
    calc ((p : ℚ) / q - c) * q * h ≤ ((p : ℚ) / q - c) * q * 2 ^ 46 :=
          mul_le_mul_of_nonneg_left hbq hnn
      _ ≤ 1 := hgap
  have h5 : (w : ℚ) / h ≤ c := by
    rw [div_le_iff₀ hhq]
    have e : ((p : ℚ) / q - c) * q * h = p * h - c * h * q := by
      field_simp
      ring
    rw [e] at h4
    have : w * q ≤ c * h * q := by linarith
    exact le_of_mul_le_mul_right this hqq
  rw [← hc]
  exact roundF64_mono h5

theorem c175_succ : roundF64 (7881299347898369 / 4503599627370496) =
    7881299347898369 / 4503599627370496 := by
  have := roundF64_eval (7881299347898369 / 4503599627370496) 0 7881299347898369
    (by norm_num) (by norm_num) (by norm_num) (by norm_num)
  rw [this]; norm_num

theorem c180_pred : roundF64 (8106479329266892 / 4503599627370496) =
    8106479329266892 / 4503599627370496 := by
  have := roundF64_eval (8106479329266892 / 4503599627370496) 0 8106479329266892
    (by norm_num) (by norm_num) (by norm_num) (by norm_num)
  rw [this]; norm_num

theorem c053_succ : roundF64 (4773815605012727 / 9007199254740992) =
    4773815605012727 / 9007199254740992 := by
  have := roundF64_eval (4773815605012727 / 9007199254740992) (-1) 4773815605012727
    (by norm_num) (by norm_num) (by norm_num) (by norm_num)
  rw [this]; norm_num

theorem c058_pred : roundF64 (5224175567749774 / 9007199254740992) =
    5224175567749774 / 9007199254740992 := by
  have := roundF64_eval (5224175567749774 / 9007199254740992) (-1) 5224175567749774
    (by norm_num) (by norm_num) (by norm_num) (by norm_num)
  rw [this]; norm_num

/-! ## Aspect-ratio classification -/

theorem aspectLabel_finite (R : ℚ) :
    aspectLabel (.finite R) =
      if 7 / 4 < R ∧ R < 8106479329266893 / 4503599627370496 then "16:9"
      else if 4773815605012726 / 9007199254740992 < R ∧
          R < 5224175567749775 / 9007199254740992 then "9:16"
      else "other" := by
  have e1 : (1.75 : ℚ) = 7 / 4 := by norm_num
  have e2 : (1.80 : ℚ) = 9 / 5 := by norm_num
  have e3 : (0.53 : ℚ) = 53 / 100 := by norm_num
  have e4 : (0.58 : ℚ) = 29 / 50 := by norm_num
  simp only [aspectLabel, F64.ofConst, F64.lt, e1, e2, e3, e4, c175_eq, c180_eq, c053_eq,
    c058_eq, Bool.and_eq_true, decide_eq_true_eq]

theorem ratio_of_dims (w h : ℤ) (hh : roundF64 (h : ℚ) ≠ 0) :
    F64.div (F64.ofInt w) (F64.ofInt h) =
      .finite (roundF64 (roundF64 (w : ℚ) / roundF64 (h : ℚ))) := by
  simp only [F64.div, F64.ofInt, if_neg hh]

theorem roundF64_zero : roundF64 0 = 0 := by
  simp [roundF64]

theorem roundF64_two_pow_53 : roundF64 9007199254740992 = 9007199254740992 := by
  have := roundF64_eval 9007199254740992 53 4503599627370496 (by norm_num) (by norm_num)
    (by norm_num) (by norm_num)
  rw [this]; norm_num

/-- For a height of at most `2 ^ 46` the four floating-point comparisons of
`getVideoAspectRatio` agree with the comparisons of the exact ratio. -/
theorem ratio_thresholds (w h : ℤ) (hh : 0 < h) (hb : h ≤ 2 ^ 46) :
    (7 / 4 < roundF64 (roundF64 (w : ℚ) / roundF64 (h : ℚ)) ↔ 7 / 4 < (w : ℚ) / h) ∧
    (roundF64 (roundF64 (w : ℚ) / roundF64 (h : ℚ)) < 8106479329266893 / 4503599627370496 ↔
      (w : ℚ) / h < 9 / 5) ∧
    (4773815605012726 / 9007199254740992 < roundF64 (roundF64 (w : ℚ) / roundF64 (h : ℚ)) ↔
      53 / 100 < (w : ℚ) / h) ∧
    (roundF64 (roundF64 (w : ℚ) / roundF64 (h : ℚ)) < 5224175567749775 / 9007199254740992 ↔
      (w : ℚ) / h < 29 / 50) := by
  have hhq : (0 : ℚ) < h := by exact_mod_cast hh
  have hbq : (h : ℚ) ≤ 2 ^ 46 := by exact_mod_cast hb
  have fh : roundF64 (h : ℚ) = h :=
    roundF64_intCast h (by norm_num; omega) (by norm_num; omega)
  rw [fh]
  rcases lt_or_le w (-9007199254740991) with hneg | hge
  · -- a width below every double-exact integer: both ratios are negative
    have hw : (w : ℚ) ≤ -9007199254740992 := by
      have : w ≤ -9007199254740992 := by omega
      exact_mod_cast this
    have hW : roundF64 (w : ℚ) ≤ -9007199254740992 := by
      have := roundF64_mono hw
      rwa [roundF64_neg, roundF64_two_pow_53] at this
    have hq : roundF64 (w : ℚ) / h ≤ 0 :=
      div_nonpos_of_nonpos_of_nonneg (by linarith) hhq.le
    have hR : roundF64 (roundF64 (w : ℚ) / h) ≤ 0 := by
      have := roundF64_mono hq
      rwa [roundF64_zero] at this
    have hr : (w : ℚ) / h < 0 := div_neg_of_neg_of_pos (by linarith) hhq
    refine ⟨⟨fun a => ?_, fun a => ?_⟩, ⟨fun _ => ?_, fun _ => ?_⟩, ⟨fun a => ?_, fun a => ?_⟩,
      ⟨fun _ => ?_, fun _ => ?_⟩⟩ <;> linarith
  rcases lt_or_le w 9007199254740992 with hlt | hbig
  · -- the width is converted exactly
    have fw : roundF64 (w : ℚ) = w :=
      roundF64_intCast w (by norm_num; omega) (by norm_num; omega)
    rw [fw]
    refine ⟨⟨fun a => ?_, fun a => ?_⟩, ⟨fun a => ?_, fun a => ?_⟩, ⟨fun a => ?_, fun a => ?_⟩,
      ⟨fun a => ?_, fun a => ?_⟩⟩
    · by_contra hc
      have := roundF64_mono (not_lt.mp hc)
      rw [c175_eq] at this
      linarith
    · have := round_above_of_gt w h 7 4 (7881299347898369 / 4503599627370496) (by norm_num)
        hh hb c175_succ (by norm_num) (by norm_num) (by push_cast; exact a)
      linarith
    · by_contra hc
      have := roundF64_mono (not_lt.mp hc)
      rw [c180_eq] at this
      linarith
    · have := round_below_of_lt w h 9 5 (8106479329266892 / 4503599627370496) (by norm_num)
        hh hb c180_pred (by norm_num) (by norm_num) (by push_cast; exact a)
      linarith
    · by_contra hc
      have := roundF64_mono (not_lt.mp hc)
      rw [c053_eq] at this
      linarith
    · have := round_above_of_gt w h 53 100 (4773815605012727 / 9007199254740992)
        (by norm_num) hh hb c053_succ (by norm_num) (by norm_num) (by push_cast; exact a)
      linarith
    · by_contra hc
      have := roundF64_mono (not_lt.mp hc)
      rw [c058_eq] at this
      linarith
    · have := round_below_of_lt w h 29 50 (5224175567749774 / 9007199254740992)
        (by norm_num) hh hb c058_pred (by norm_num) (by norm_num) (by push_cast; exact a)
      linarith
  · -- a width of at least `2 ^ 53`: both ratios are at least 128
    have hw : (9007199254740992 : ℚ) ≤ w := by
      have : (9007199254740992 : ℤ) ≤ w := by omega
      exact_mod_cast this
    have hW : 9007199254740992 ≤ roundF64 (w : ℚ) := by
      have := roundF64_mono hw
      rwa [roundF64_two_pow_53] at this
    have hq : (128 : ℚ) ≤ roundF64 (w : ℚ) / h := by
      rw [le_div_iff₀ hhq]; linarith
    have hR : 128 ≤ roundF64 (roundF64 (w : ℚ) / h) := by
      have := roundF64_mono hq
      have e : roundF64 (128 : ℚ) = 128 := by
        simpa using roundF64_natCast 128 (by norm_num)
      rwa [e] at this
    have hr : (128 : ℚ) ≤ (w : ℚ) / h := by
      rw [le_div_iff₀ hhq]; linarith
    refine ⟨⟨fun _ => ?_, fun _ => ?_⟩, ⟨fun a => ?_, fun a => ?_⟩, ⟨fun _ => ?_, fun _ => ?_⟩,
      ⟨fun a => ?_, fun a => ?_⟩⟩ <;> linarith

theorem getVideoAspectRatio_of_stream (env : Env) (path : String) (s : World) (out : Bytes)
    (w h : ℤ) (codec : String) (more : List Stream) (hrun : env.ffprobe path = some out)
    (hjson : env.jsonUnmarshal out = some ⟨⟨w, h, codec⟩ :: more⟩) :
    getVideoAspectRatio env path s =
      (.ok (aspectLabel (F64.div (F64.ofInt w) (F64.ofInt h))),
        emit (.Inspect path true) s) := by
  simp only [getVideoAspectRatio, hrun, hjson]

theorem aspectLabel_of_bounded (w h : ℤ) (hh : 0 < h) (hb : h ≤ 2 ^ 46) :
    aspectLabel (F64.div (F64.ofInt w) (F64.ofInt h)) =
      if 7 / 4 < (w : ℚ) / h ∧ (w : ℚ) / h < 9 / 5 then "16:9"
      else if 53 / 100 < (w : ℚ) / h ∧ (w : ℚ) / h < 29 / 50 then "9:16"
      else "other" := by
  have fh : roundF64 (h : ℚ) = h :=
    roundF64_intCast h (by norm_num; omega) (by norm_num; omega)
  have hne : roundF64 (h : ℚ) ≠ 0 := by
    rw [fh]; exact_mod_cast hh.ne'
  obtain ⟨t1, t2, t3, t4⟩ := ratio_thresholds w h hh hb
  rw [ratio_of_dims w h hne, aspectLabel_finite]
  simp only [t1, t2, t3, t4]

theorem orientationDir_cases :
    orientationDir "16:9" = "landscape/" ∧ orientationDir "9:16" = "portrait/" ∧
      orientationDir "other" = "other/" := by
  refine ⟨?_, ?_, ?_⟩ <;> simp [orientationDir]

/-- C2 (amended): when the inspector reports a first stream of width `w` and height `h` with
`0 < h ≤ 2 ^ 46`, `getVideoAspectRatio` returns "16:9" exactly when `1.75 < w / h < 1.80`,
"9:16" exactly when `0.53 < w / h < 0.58`, and "other" in every remaining case, the ratio
`w / h` being the exact quotient; `handlerUploadVideo` maps the three results to the
directories "landscape/", "portrait/" and "other/". -/
theorem aspect_ratio_classification_bounded (env : Env) (path : String) (s : World)
    (out : Bytes) (w h : ℤ) (codec : String) (more : List Stream)
    (hrun : env.ffprobe path = some out)
    (hjson : env.jsonUnmarshal out = some ⟨⟨w, h, codec⟩ :: more⟩)
    (hpos : 0 < h) (hbound : h ≤ 2 ^ 46) :
    ((getVideoAspectRatio env path s).1 = .ok "16:9" ↔
        (1.75 : ℚ) < (w : ℚ) / h ∧ (w : ℚ) / h < 1.80) ∧
      ((getVideoAspectRatio env path s).1 = .ok "9:16" ↔
        (0.53 : ℚ) < (w : ℚ) / h ∧ (w : ℚ) / h < 0.58) ∧
      ((getVideoAspectRatio env path s).1 = .ok "other" ↔
        ¬((1.75 : ℚ) < (w : ℚ) / h ∧ (w : ℚ) / h < 1.80) ∧
          ¬((0.53 : ℚ) < (w : ℚ) / h ∧ (w : ℚ) / h < 0.58)) ∧
      orientationDir "16:9" = "landscape/" ∧ orientationDir "9:16" = "portrait/" ∧
      orientationDir "other" = "other/" := by
  have e1 : (1.75 : ℚ) = 7 / 4 := by norm_num
  have e2 : (1.80 : ℚ) = 9 / 5 := by norm_num
  have e3 : (0.53 : ℚ) = 53 / 100 := by norm_num
  have e4 : (0.58 : ℚ) = 29 / 50 := by norm_num
  rw [getVideoAspectRatio_of_stream env path s out w h codec more hrun hjson,
    aspectLabel_of_bounded w h hpos hbound, e1, e2, e3, e4]
  refine ⟨?_, ?_, ?_, orientationDir_cases⟩
  · by_cases c1 : 7 / 4 < (w : ℚ) / h ∧ (w : ℚ) / h < 9 / 5
    · simp [c1]
    · by_cases c2 : 53 / 100 < (w : ℚ) / h ∧ (w : ℚ) / h < 29 / 50
      · simp [c1, c2]
      · simp [c1, c2]
  · by_cases c1 : 7 / 4 < (w : ℚ) / h ∧ (w : ℚ) / h < 9 / 5
    · have : ¬(53 / 100 < (w : ℚ) / h ∧ (w : ℚ) / h < 29 / 50) := by
        intro c2; linarith [c1.1, c2.2]
      simp [c1, this]
    · by_cases c2 : 53 / 100 < (w : ℚ) / h ∧ (w : ℚ) / h < 29 / 50
      · simp [c1, c2]
      · simp [c1, c2]
  · by_cases c1 : 7 / 4 < (w : ℚ) / h ∧ (w : ℚ) / h < 9 / 5
    · simp [c1]
    · by_cases c2 : 53 / 100 < (w : ℚ) / h ∧ (w : ℚ) / h < 29 / 50
      · simp [c1, c2]
      · simp [c1, c2]

theorem aspect_ratio_classification_bounded_witness :
    ((0 : ℤ) < 1080 ∧ (1080 : ℤ) ≤ 2 ^ 46) ∧
    (((getVideoAspectRatio demoEnv "/tmp/in.mp4" (World.start [])).1 = .ok "16:9" ↔
        (1.75 : ℚ) < ((1920 : ℤ) : ℚ) / (1080 : ℤ) ∧ ((1920 : ℤ) : ℚ) / (1080 : ℤ) < 1.80) ∧
      ((getVideoAspectRatio demoEnv "/tmp/in.mp4" (World.start [])).1 = .ok "9:16" ↔
        (0.53 : ℚ) < ((1920 : ℤ) : ℚ) / (1080 : ℤ) ∧ ((1920 : ℤ) : ℚ) / (1080 : ℤ) < 0.58) ∧
      ((getVideoAspectRatio demoEnv "/tmp/in.mp4" (World.start [])).1 = .ok "other" ↔
        ¬((1.75 : ℚ) < ((1920 : ℤ) : ℚ) / (1080 : ℤ) ∧
            ((1920 : ℤ) : ℚ) / (1080 : ℤ) < 1.80) ∧
          ¬((0.53 : ℚ) < ((1920 : ℤ) : ℚ) / (1080 : ℤ) ∧
            ((1920 : ℤ) : ℚ) / (1080 : ℤ) < 0.58)) ∧
      orientationDir "16:9" = "landscape/" ∧ orientationDir "9:16" = "portrait/" ∧
      orientationDir "other" = "other/") :=
  ⟨⟨by norm_num, by norm_num⟩,
    aspect_ratio_classification_bounded demoEnv "/tmp/in.mp4" (World.start []) [123, 125]
      1920 1080 "video" [] rfl rfl (by norm_num) (by norm_num)⟩

/-- C2 (as stated) fails: for the first stream 64511021689378 by 121718908847883 the exact
ratio lies strictly between 0.53 and 0.58, yet the quotient of the two doubles rounds to
the double nearest to 0.53 and `getVideoAspectRatio` returns "other". -/
theorem aspect_ratio_boundary_counterexample :
    (0 : ℤ) < 121718908847883 ∧
      (0.53 : ℚ) < ((64511021689378 : ℤ) : ℚ) / (121718908847883 : ℤ) ∧
      ((64511021689378 : ℤ) : ℚ) / (121718908847883 : ℤ) < 0.58 ∧
      (getVideoAspectRatio (demoEnvOf 64511021689378 121718908847883) "/tmp/in.mp4"
        (World.start [])).1 = .ok "other" := by
  refine ⟨by norm_num, by norm_num, by norm_num, ?_⟩
  have fw : roundF64 ((64511021689378 : ℤ) : ℚ) = (64511021689378 : ℤ) :=
    roundF64_intCast _ (by norm_num) (by norm_num)
  have fh : roundF64 ((121718908847883 : ℤ) : ℚ) = (121718908847883 : ℤ) :=
    roundF64_intCast _ (by norm_num) (by norm_num)
  have hne : roundF64 ((121718908847883 : ℤ) : ℚ) ≠ 0 := by
    rw [fh]; norm_num
  have hq : roundF64 (((64511021689378 : ℤ) : ℚ) / ((121718908847883 : ℤ) : ℚ)) =
      4773815605012726 / 9007199254740992 := by
    have := roundF64_eval (((64511021689378 : ℤ) : ℚ) / ((121718908847883 : ℤ) : ℚ)) (-1)
      4773815605012726 (by norm_num) (by norm_num) (by norm_num) (by norm_num)
    rw [this]; norm_num
  rw [getVideoAspectRatio_of_stream (demoEnvOf 64511021689378 121718908847883) "/tmp/in.mp4"
    (World.start []) [123, 125] 64511021689378 121718908847883 "video" [] rfl rfl,
    ratio_of_dims _ _ hne, fw, fh, hq, aspectLabel_finite]
  norm_num

theorem roundF64_pos_error (n : ℤ) (hn : 0 < n) :
    (n : ℚ) - n / 2 ^ (53 : ℕ) ≤ roundF64 n ∧ roundF64 (n : ℚ) ≤ n + n / 2 ^ (53 : ℕ) := by
  have hq : (0 : ℚ) < n := by exact_mod_cast hn
  unfold roundF64
  rw [if_neg hq.ne', if_pos hq]
  exact roundPos_error _ hq

/-- Two representable bounds that enclose the exact ratio with a little room also enclose
the ratio the handler computes, whatever the size of the two dimensions. -/
theorem ratio_between (w h : ℤ) (hw : 0 < w) (hh : 0 < h) (a b : ℚ) (ha : roundF64 a = a)
    (hb : roundF64 b = b) (ha0 : 0 ≤ a) (hb0 : 0 ≤ b)
    (hlo : a * (h + h / 2 ^ (53 : ℕ)) ≤ w - w / 2 ^ (53 : ℕ))
    (hhi : (w : ℚ) + w / 2 ^ (53 : ℕ) ≤ b * (h - h / 2 ^ (53 : ℕ))) :
    roundF64 (h : ℚ) ≠ 0 ∧ a ≤ roundF64 (roundF64 (w : ℚ) / roundF64 (h : ℚ)) ∧
      roundF64 (roundF64 (w : ℚ) / roundF64 (h : ℚ)) ≤ b := by
  obtain ⟨w1, w2⟩ := roundF64_pos_error w hw
  obtain ⟨h1, h2⟩ := roundF64_pos_error h hh
  have hhq : (0 : ℚ) < h := by exact_mod_cast hh
  have hsmall : (h : ℚ) / 2 ^ (53 : ℕ) < h := by
    rw [div_lt_iff₀ (by positivity)]
    have : (1 : ℚ) < 2 ^ (53 : ℕ) := by norm_num
    nlinarith
  have hH : 0 < roundF64 (h : ℚ) := by linarith
  have q1 : a ≤ roundF64 (w : ℚ) / roundF64 (h : ℚ) := by
    rw [le_div_iff₀ hH]
    have := mul_le_mul_of_nonneg_left h2 ha0
    linarith
  have q2 : roundF64 (w : ℚ) / roundF64 (h : ℚ) ≤ b := by
    rw [div_le_iff₀ hH]
    have := mul_le_mul_of_nonneg_left h1 hb0
    linarith
  refine ⟨hH.ne', ?_, ?_⟩
  · have := roundF64_mono q1
    rwa [ha] at this
  · have := roundF64_mono q2
    rwa [hb] at this

theorem repr_225_128 : roundF64 (225 / 128) = 225 / 128 := by
  have := roundF64_eval (225 / 128) 0 7916483719987200 (by norm_num) (by norm_num)
    (by norm_num) (by norm_num)
  rw [this]; norm_num

theorem repr_229_128 : roundF64 (229 / 128) = 229 / 128 := by
  have := roundF64_eval (229 / 128) 0 8057221208342528 (by norm_num) (by norm_num)
    (by norm_num) (by norm_num)
  rw [this]; norm_num

theorem repr_69_128 : roundF64 (69 / 128) = 69 / 128 := by
  have := roundF64_eval (69 / 128) (-1) 4855443348258816 (by norm_num) (by norm_num)
    (by norm_num) (by norm_num)
  rw [this]; norm_num

theorem repr_37_64 : roundF64 (37 / 64) = 37 / 64 := by
  have := roundF64_eval (37 / 64) (-1) 5207287069147136 (by norm_num) (by norm_num)
    (by norm_num) (by norm_num)
  rw [this]; norm_num

theorem aspectLabel_landscape (w h : ℤ) (hw : 0 < w) (hh : 0 < h) (he : 9 * w = 16 * h) :
    aspectLabel (F64.div (F64.ofInt w) (F64.ofInt h)) = "16:9" := by
  have heq : (9 : ℚ) * w = 16 * h := by exact_mod_cast he
  have hhq : (0 : ℚ) < h := by exact_mod_cast hh
  have hwq : (0 : ℚ) < w := by exact_mod_cast hw
  obtain ⟨hne, lo, hi⟩ := ratio_between w h hw hh (225 / 128) (229 / 128) repr_225_128
    repr_229_128 (by norm_num) (by norm_num) (by norm_num; linarith) (by norm_num; linarith)
  rw [ratio_of_dims w h hne, aspectLabel_finite, if_pos]
  constructor <;> linarith

theorem aspectLabel_portrait (w h : ℤ) (hw : 0 < w) (hh : 0 < h) (he : 16 * w = 9 * h) :
    aspectLabel (F64.div (F64.ofInt w) (F64.ofInt h)) = "9:16" := by
  have heq : (16 : ℚ) * w = 9 * h := by exact_mod_cast he
  have hhq : (0 : ℚ) < h := by exact_mod_cast hh
  have hwq : (0 : ℚ) < w := by exact_mod_cast hw
  obtain ⟨hne, lo, hi⟩ := ratio_between w h hw hh (69 / 128) (37 / 64) repr_69_128
    repr_37_64 (by norm_num) (by norm_num) (by norm_num; linarith) (by norm_num; linarith)
  rw [ratio_of_dims w h hne, aspectLabel_finite, if_neg, if_pos]
  · constructor <;> linarith
  · intro c; linarith [c.1]

theorem aspectLabel_square (w : ℤ) (hw : 0 < w) :
    aspectLabel (F64.div (F64.ofInt w) (F64.ofInt w)) = "other" := by
  obtain ⟨w1, _⟩ := roundF64_pos_error w hw
  have hwq : (0 : ℚ) < w := by exact_mod_cast hw
  have hsmall : (w : ℚ) / 2 ^ (53 : ℕ) < w := by
    rw [div_lt_iff₀ (by positivity)]
    have : (1 : ℚ) < 2 ^ (53 : ℕ) := by norm_num
    nlinarith
  have hW : 0 < roundF64 (w : ℚ) := by linarith
  have one : roundF64 (1 : ℚ) = 1 := by
    simpa using roundF64_natCast 1 (by norm_num)
  rw [ratio_of_dims w w hW.ne', div_self hW.ne', one, aspectLabel_finite]
  norm_num

/-- C10: for all positive integers `w` and `h` reported for the first stream, the directory
chosen by `handlerUploadVideo` is "landscape/" if `9 * w = 16 * h`, "portrait/" if
`16 * w = 9 * h`, and "other/" if `w = h`. -/
theorem exact_ratio_directory (env : Env) (path : String) (s : World) (out : Bytes)
    (w h : ℤ) (codec : String) (more : List Stream)
    (hrun : env.ffprobe path = some out)
    (hjson : env.jsonUnmarshal out = some ⟨⟨w, h, codec⟩ :: more⟩)
    (hw : 0 < w) (hh : 0 < h) :
    (9 * w = 16 * h → ∃ ratio, (getVideoAspectRatio env path s).1 = .ok ratio ∧
        orientationDir ratio = "landscape/") ∧
      (16 * w = 9 * h → ∃ ratio, (getVideoAspectRatio env path s).1 = .ok ratio ∧
        orientationDir ratio = "portrait/") ∧
      (w = h → ∃ ratio, (getVideoAspectRatio env path s).1 = .ok ratio ∧
        orientationDir ratio = "other/") := by
  rw [getVideoAspectRatio_of_stream env path s out w h codec more hrun hjson]
  refine ⟨fun he => ⟨_, rfl, ?_⟩, fun he => ⟨_, rfl, ?_⟩, fun he => ⟨_, rfl, ?_⟩⟩
  · rw [aspectLabel_landscape w h hw hh he]; exact orientationDir_cases.1
  · rw [aspectLabel_portrait w h hw hh he]; exact orientationDir_cases.2.1
  · subst he
    rw [aspectLabel_square w hw]; exact orientationDir_cases.2.2

theorem exact_ratio_directory_witness :
    ((0 : ℤ) < 1920 ∧ (0 : ℤ) < 1080 ∧ (9 : ℤ) * 1920 = 16 * 1080) ∧
      ∃ ratio, (getVideoAspectRatio demoEnv "/tmp/in.mp4" (World.start [])).1 = .ok ratio ∧
        orientationDir ratio = "landscape/" :=
  ⟨⟨by norm_num, by norm_num, by norm_num⟩,
    (exact_ratio_directory demoEnv "/tmp/in.mp4" (World.start []) [123, 125] 1920 1080
      "video" [] rfl rfl (by norm_num) (by norm_num)).1 (by norm_num)⟩

/-! ## Traces of the video handler -/

@[simp]
theorem emit_trace (e : Event) (s : World) : (emit e s).trace = s.trace ++ [e] := rfl

@[simp]
theorem writeFile_trace (p : String) (c : Bytes) (s : World) :
    (writeFile p c s).trace = s.trace := rfl

@[simp]
theorem removeFile_trace (p : String) (s : World) : (removeFile p s).trace = s.trace :=
  rfl

@[simp]
theorem respondWithError_trace (c : Nat) (m : String) (s : World) :
    (respondWithError c m s).trace = s.trace := rfl

@[simp]
theorem respondWithJSON_trace (c : Nat) (v : Video) (s : World) :
    (respondWithJSON c v s).trace = s.trace := rfl

theorem uploadOpened_tail (cfg : apiConfig) (env : Env) (videoID userID : UUID)
    (video : Video) (mediaType dir t o : String) (s : World) :
    ∃ tail, (uploadOpened cfg env videoID userID video mediaType dir t o s).trace =
        s.trace ++ tail ∧ UploadTail t tail := by
  unfold uploadOpened
  rcases hseek : env.seek t with _ | _
  · exact ⟨_, by simp, UploadTail.seekFailed⟩
  · rcases hput : env.putObject cfg.s3Bucket
        (dir ++ userID.canonical ++ "/" ++ videoID.canonical ++ ".mp4") with _ | _
    · refine ⟨_, ?_, UploadTail.putFailed cfg.s3Bucket
        (dir ++ userID.canonical ++ "/" ++ videoID.canonical ++ ".mp4") mediaType
        (readFile o (emit (.Seek t true) s))⟩
      simp [hput]
    · refine ⟨_, ?_, UploadTail.updated cfg.s3Bucket
        (dir ++ userID.canonical ++ "/" ++ videoID.canonical ++ ".mp4") mediaType
        (readFile o (emit (.Seek t true) s))
        { video with VideoURL := some ("http://" ++ cfg.s3CfDistribution ++ "/" ++
            (dir ++ userID.canonical ++ "/" ++ videoID.canonical ++ ".mp4")) }
        (env.updateVideo { video with VideoURL := some ("http://" ++ cfg.s3CfDistribution ++
            "/" ++ (dir ++ userID.canonical ++ "/" ++ videoID.canonical ++ ".mp4")) })⟩
      simp [hput]
      split <;> simp

theorem getVideoAspectRatio_effect (env : Env) (p : String) (s : World) :
    (∃ e, getVideoAspectRatio env p s = (.error e, emit (.Inspect p false) s)) ∨
      ∃ ratio, getVideoAspectRatio env p s = (.ok ratio, emit (.Inspect p true) s) := by
  unfold getVideoAspectRatio
  rcases h1 : env.ffprobe p with _ | out
  · exact Or.inl ⟨_, rfl⟩
  · simp only []
    rcases h2 : env.jsonUnmarshal out with _ | ⟨streams⟩
    · exact Or.inl ⟨_, rfl⟩
    · simp only []
      rcases streams with _ | ⟨s0, more⟩
      · exact Or.inl ⟨_, rfl⟩
      · exact Or.inr ⟨_, rfl⟩

theorem processVideoForFastStart_effect (env : Env) (p : String) (s : World) :
    (∃ e s', processVideoForFastStart env p s = (.error e, s') ∧
        s'.trace = s.trace ++ [.Remux p (p ++ ".processing") false]) ∨
      ∃ s', processVideoForFastStart env p s = (.ok (p ++ ".processing"), s') ∧
        s'.trace = s.trace ++ [.Remux p (p ++ ".processing") true] := by
  simp only [processVideoForFastStart]
  rcases h : env.ffmpeg p (p ++ ".processing") with ⟨written, ok⟩
  rcases ok with _ | _ <;> rcases written with _ | content
  · exact Or.inl ⟨_, _, rfl, rfl⟩
  · exact Or.inl ⟨_, _, rfl, rfl⟩
  · exact Or.inr ⟨_, rfl, rfl⟩
  · exact Or.inr ⟨_, rfl, rfl⟩

theorem uploadStaged_tail (cfg : apiConfig) (env : Env) (videoID userID : UUID)
    (video : Video) (mediaType : String) (file : Bytes) (t : String) (s : World) :
    ∃ tail, (uploadStaged cfg env videoID userID video mediaType file t s).trace =
        s.trace ++ tail ∧ StagedTail t tail := by
  unfold uploadStaged
  rcases hcopy : (env.ioCopy t file).2 with _ | _
  · exact ⟨_, by simp [hcopy], StagedTail.copyFailed⟩
  · rcases getVideoAspectRatio_effect env t
        (emit (.CopyToTemp t true) (writeFile t (env.ioCopy t file).1 s)) with ⟨e, hi⟩ | ⟨ratio, hi⟩
    · exact ⟨_, by simp [hcopy, hi], StagedTail.inspectFailed⟩
    · rcases processVideoForFastStart_effect env t
          (emit (.Inspect t true)
            (emit (.CopyToTemp t true) (writeFile t (env.ioCopy t file).1 s)))
        with ⟨e, s', hr, htr⟩ | ⟨s', hr, htr⟩
      · exact ⟨_, by simp [hcopy, hi, hr, htr], StagedTail.remuxFailed (t ++ ".processing")⟩
      · rcases hop : (fileExists (t ++ ".processing") s' && env.osOpen (t ++ ".processing"))
          with _ | _
        · exact ⟨_, by simp [hcopy, hi, hr, htr, hop], StagedTail.openFailed (t ++ ".processing")⟩
        · obtain ⟨tail, ht, hshape⟩ := uploadOpened_tail cfg env videoID userID video mediaType
            (orientationDir ratio) t (t ++ ".processing")
            (emit (.Open (t ++ ".processing") true) s')
          exact ⟨_, by simp [hcopy, hi, hr, htr, hop, ht], StagedTail.opened (t ++ ".processing") tail hshape⟩

theorem handlerUploadVideo_shape (cfg : apiConfig) (env : Env) (r : Request)
    (disk : List (String × Bytes)) :
    VideoTrace (handlerUploadVideo cfg env r (World.start disk)).trace := by
  rcases hid : env.uuidParse r.pathVideoID with _ | videoID
  · have : (handlerUploadVideo cfg env r (World.start disk)).trace = [] := by
      simp [handlerUploadVideo, World.start, hid]
    rw [this]; exact VideoTrace.rejected
  rcases htok : r.bearerToken with _ | token
  · have : (handlerUploadVideo cfg env r (World.start disk)).trace = [] := by
      simp [handlerUploadVideo, World.start, hid, htok]
    rw [this]; exact VideoTrace.rejected
  rcases hjwt : env.validateJWT token cfg.jwtSecret with _ | userID
  · have : (handlerUploadVideo cfg env r (World.start disk)).trace = [] := by
      simp [handlerUploadVideo, World.start, hid, htok, hjwt]
    rw [this]; exact VideoTrace.rejected
  rcases hget : env.getVideo videoID with _ | video
  · have : (handlerUploadVideo cfg env r (World.start disk)).trace =
        [.GetVideo videoID false] := by
      simp [handlerUploadVideo, World.start, hid, htok, hjwt, hget]
    rw [this]; exact VideoTrace.lookup _ _
  by_cases hown : video.UserID = userID
  swap
  · have : (handlerUploadVideo cfg env r (World.start disk)).trace =
        [.GetVideo videoID true] := by
      simp [handlerUploadVideo, World.start, hid, htok, hjwt, hget, hown]
    rw [this]; exact VideoTrace.lookup _ _
  rcases hform : r.formFile "video" with _ | ⟨file, contentType⟩
  · have : (handlerUploadVideo cfg env r (World.start disk)).trace =
        [.GetVideo videoID true] := by
      simp [handlerUploadVideo, World.start, hid, htok, hjwt, hget, hown, hform]
    rw [this]; exact VideoTrace.lookup _ _
  rcases hmedia : env.parseMediaType contentType with _ | mediaType
  · have : (handlerUploadVideo cfg env r (World.start disk)).trace =
        [.GetVideo videoID true] := by
      simp [handlerUploadVideo, World.start, hid, htok, hjwt, hget, hown, hform, hmedia]
    rw [this]; exact VideoTrace.lookup _ _
  by_cases hmp4 : mediaType = "video/mp4"
  swap
  · have : (handlerUploadVideo cfg env r (World.start disk)).trace =
        [.GetVideo videoID true] := by
      simp [handlerUploadVideo, World.start, hid, htok, hjwt, hget, hown, hform, hmedia, hmp4]
    rw [this]; exact VideoTrace.lookup _ _
  rcases htemp : env.createTemp with _ | t
  · have : (handlerUploadVideo cfg env r (World.start disk)).trace =
        [.GetVideo videoID true] := by
      simp [handlerUploadVideo, World.start, hid, htok, hjwt, hget, hown, hform, hmedia, hmp4,
        htemp]
    rw [this]; exact VideoTrace.lookup _ _
  obtain ⟨tail, ht, hshape⟩ := uploadStaged_tail cfg env videoID userID video mediaType file t
    (emit (.CreateTemp t) (writeFile t [] (emit (.GetVideo videoID true) (World.start disk))))
  have : (handlerUploadVideo cfg env r (World.start disk)).trace =
      [.GetVideo videoID true, .CreateTemp t] ++ tail ++ [.Close t, .Remove t] := by
    subst hmp4
    simp [handlerUploadVideo, hid, htok, hjwt, hget, hown, hform, hmedia, htemp, ht]
    simp [World.start]
  rw [this]; exact VideoTrace.staged videoID t tail hshape

theorem VideoTrace.stagesInOrder {tr : List Event} (h : VideoTrace tr) : StagesInOrder tr := by
  unfold StagesInOrder
  rcases h with _ | ⟨id, ok⟩ | ⟨id, t, tail, h⟩
  · simp
  · simp [Event.stage]
  · rcases h with _ | _ | ⟨o⟩ | ⟨o⟩ | ⟨o, tail, h⟩
    · simp [Event.stage]
    · simp [Event.stage]
    · simp [Event.stage]
    · simp [Event.stage]
    · rcases h with _ | ⟨b, k, ct, body⟩ | ⟨b, k, ct, body, v, up⟩
      · simp [Event.stage]
      · simp [Event.stage]
      · simp [Event.stage]

/-! ## Claims about the handlers -/

/-- C3: in a video upload in which every stage up to the upload succeeds, `PutObject` is
called once, with the configured bucket, the key `<dir><userID>/<videoID>.mp4`, content type
"video/mp4" and the remuxed file as body; when it succeeds `UpdateVideo` follows with the
fetched record in which only `VideoURL` is replaced by
`http://<distribution host>/<key>`. A `PutObject` error yields status 500 and no
`UpdateVideo` call, an `UpdateVideo` error yields status 500. -/
theorem video_upload_key_and_url (cfg : apiConfig) (env : Env) (r : Request)
    (disk : List (String × Bytes)) (videoID userID : UUID) (token contentType t : String)
    (video : Video) (file out remuxed : Bytes) (st : Stream) (more : List Stream)
    (hid : env.uuidParse r.pathVideoID = some videoID)
    (htok : r.bearerToken = some token)
    (hjwt : env.validateJWT token cfg.jwtSecret = some userID)
    (hget : env.getVideo videoID = some video)
    (hown : video.UserID = userID)
    (hform : r.formFile "video" = some (file, contentType))
    (hmedia : env.parseMediaType contentType = some "video/mp4")
    (htemp : env.createTemp = some t)
    (hcopy : (env.ioCopy t file).2 = true)
    (hrun : env.ffprobe t = some out)
    (hjson : env.jsonUnmarshal out = some ⟨st :: more⟩)
    (hremux : env.ffmpeg t (t ++ ".processing") = ⟨some remuxed, true⟩)
    (hopen : env.osOpen (t ++ ".processing") = true)
    (hseek : env.seek t = true) :
    let dir := orientationDir (aspectLabel (F64.div (F64.ofInt st.Width) (F64.ofInt st.Height)))
    let key := dir ++ userID.canonical ++ "/" ++ videoID.canonical ++ ".mp4"
    let updated := { video with VideoURL := some ("http://" ++ cfg.s3CfDistribution ++ "/" ++ key) }
    let final := handlerUploadVideo cfg env r (World.start disk)
    (env.putObject cfg.s3Bucket key = true →
        final.trace =
          [.GetVideo videoID true, .CreateTemp t, .CopyToTemp t true, .Inspect t true,
            .Remux t (t ++ ".processing") true, .Open (t ++ ".processing") true,
            .Seek t true, .PutObject cfg.s3Bucket key "video/mp4" remuxed true,
            .UpdateVideo updated (env.updateVideo updated),
            .Close (t ++ ".processing"), .Remove (t ++ ".processing"), .Close t, .Remove t]) ∧
      (env.putObject cfg.s3Bucket key = false →
        final.response = some (.error 500 "Error uploading file to S3") ∧
          final.trace =
            [.GetVideo videoID true, .CreateTemp t, .CopyToTemp t true, .Inspect t true,
              .Remux t (t ++ ".processing") true, .Open (t ++ ".processing") true,
              .Seek t true, .PutObject cfg.s3Bucket key "video/mp4" remuxed false,
              .Close (t ++ ".processing"), .Remove (t ++ ".processing"), .Close t,
              .Remove t] ∧
          ∀ v ok, Event.UpdateVideo v ok ∉ final.trace) ∧
      (env.putObject cfg.s3Bucket key = true → env.updateVideo updated = false →
        final.response = some (.error 500 "Couldn't update video")) := by
  subst hown
  intro dir key updated final
  refine ⟨fun hput => ?_, fun hput => ?_, fun hput hupd => ?_⟩
  · simp only [final, updated, key, dir] at hput ⊢
    simp [handlerUploadVideo, uploadStaged, uploadOpened, processVideoForFastStart,
      getVideoAspectRatio, emit, writeFile, removeFile, readFile, fileExists,
      respondWithError, World.start, hid, htok, hjwt, hget, hform, hmedia, htemp,
      hcopy, hrun, hjson, hremux, hopen, hseek, hput]
    split <;> simp
  · simp only [final, updated, key, dir] at hput ⊢
    simp [handlerUploadVideo, uploadStaged, uploadOpened, processVideoForFastStart,
      getVideoAspectRatio, emit, writeFile, removeFile, readFile, fileExists,
      respondWithError, World.start, hid, htok, hjwt, hget, hform, hmedia, htemp,
      hcopy, hrun, hjson, hremux, hopen, hseek, hput]
  · simp only [final, updated, key, dir] at hput hupd ⊢
    simp [handlerUploadVideo, uploadStaged, uploadOpened, processVideoForFastStart,
      getVideoAspectRatio, emit, writeFile, removeFile, readFile, fileExists,
      respondWithError, World.start, hid, htok, hjwt, hget, hform, hmedia, htemp,
      hcopy, hrun, hjson, hremux, hopen, hseek, hput, hupd]

/-- C3, at the owner's request with every stage succeeding. -/
theorem video_upload_key_and_url_witness :
    demoEnv.putObject demoCfg.s3Bucket
        (orientationDir (aspectLabel (F64.div (F64.ofInt 1920) (F64.ofInt 1080))) ++
          demoOwner.canonical ++ "/" ++ demoVideoID.canonical ++ ".mp4") = true ∧
      (handlerUploadVideo demoCfg demoEnv demoRequest (World.start [])).trace =
        [.GetVideo demoVideoID true, .CreateTemp "/tmp/tubely-upload.mp4-1",
          .CopyToTemp "/tmp/tubely-upload.mp4-1" true, .Inspect "/tmp/tubely-upload.mp4-1" true,
          .Remux "/tmp/tubely-upload.mp4-1" ("/tmp/tubely-upload.mp4-1" ++ ".processing") true,
          .Open ("/tmp/tubely-upload.mp4-1" ++ ".processing") true,
          .Seek "/tmp/tubely-upload.mp4-1" true,
          .PutObject demoCfg.s3Bucket
            (orientationDir (aspectLabel (F64.div (F64.ofInt 1920) (F64.ofInt 1080))) ++
              demoOwner.canonical ++ "/" ++ demoVideoID.canonical ++ ".mp4")
            "video/mp4" [0, 0, 0, 32] true,
          .UpdateVideo
            { demoVideo with VideoURL := some ("http://" ++ demoCfg.s3CfDistribution ++ "/" ++
              (orientationDir (aspectLabel (F64.div (F64.ofInt 1920) (F64.ofInt 1080))) ++
                demoOwner.canonical ++ "/" ++ demoVideoID.canonical ++ ".mp4")) }
            (demoEnv.updateVideo
              { demoVideo with VideoURL := some ("http://" ++ demoCfg.s3CfDistribution ++ "/" ++
                (orientationDir (aspectLabel (F64.div (F64.ofInt 1920) (F64.ofInt 1080))) ++
                  demoOwner.canonical ++ "/" ++ demoVideoID.canonical ++ ".mp4")) }),
          .Close ("/tmp/tubely-upload.mp4-1" ++ ".processing"),
          .Remove ("/tmp/tubely-upload.mp4-1" ++ ".processing"),
          .Close "/tmp/tubely-upload.mp4-1", .Remove "/tmp/tubely-upload.mp4-1"] :=
  ⟨rfl,
    (video_upload_key_and_url demoCfg demoEnv demoRequest [] demoVideoID demoOwner "owner-token"
      "video/mp4" "/tmp/tubely-upload.mp4-1" demoVideo [0, 0, 0, 24] [123, 125] [0, 0, 0, 32]
      ⟨1920, 1080, "video"⟩ [] rfl rfl rfl rfl rfl rfl rfl rfl rfl rfl rfl rfl rfl rfl).1 rfl⟩

/-- C6: in `handlerUploadVideo` the stages staged-locally, inspected, remuxed, uploaded,
metadata-updated occur in that order, and a stage runs only after every earlier stage
succeeded: the inspector only after a successful copy, the remuxer only after a successful
inspection, `PutObject` only after staging, inspection and remuxing succeeded, `UpdateVideo`
only after `PutObject` succeeded. When the inspector fails (process error, unparseable
output or an empty stream list) the handler responds 500 and calls neither the remuxer,
`PutObject` nor `UpdateVideo`. -/
theorem video_pipeline_order (cfg : apiConfig) (env : Env) (r : Request)
    (disk : List (String × Bytes)) :
    let final := handlerUploadVideo cfg env r (World.start disk)
    ((final.trace.filterMap Event.stage).Pairwise (fun a b => a < b) ∧
      (∀ p ok, Event.Inspect p ok ∈ final.trace → Event.CopyToTemp p true ∈ final.trace) ∧
      (∀ i o ok, Event.Remux i o ok ∈ final.trace →
        Event.CopyToTemp i true ∈ final.trace ∧ Event.Inspect i true ∈ final.trace) ∧
      (∀ b k ct body ok, Event.PutObject b k ct body ok ∈ final.trace →
        ∃ t o, Event.CopyToTemp t true ∈ final.trace ∧ Event.Inspect t true ∈ final.trace ∧
          Event.Remux t o true ∈ final.trace) ∧
      (∀ v ok, Event.UpdateVideo v ok ∈ final.trace →
        ∃ b k ct body, Event.PutObject b k ct body true ∈ final.trace)) ∧
    ∀ (videoID userID : UUID) (token contentType t : String) (video : Video) (file : Bytes),
      env.uuidParse r.pathVideoID = some videoID →
      r.bearerToken = some token →
      env.validateJWT token cfg.jwtSecret = some userID →
      env.getVideo videoID = some video →
      video.UserID = userID →
      r.formFile "video" = some (file, contentType) →
      env.parseMediaType contentType = some "video/mp4" →
      env.createTemp = some t →
      (env.ioCopy t file).2 = true →
      (env.ffprobe t = none ∨
        ∃ out, env.ffprobe t = some out ∧
          (env.jsonUnmarshal out = none ∨ env.jsonUnmarshal out = some ⟨[]⟩)) →
      final.response = some (.error 500 "Couldn't get aspect ratio") ∧
        final.trace =
          [.GetVideo videoID true, .CreateTemp t, .CopyToTemp t true, .Inspect t false,
            .Close t, .Remove t] := by
  intro final
  refine ⟨(handlerUploadVideo_shape cfg env r disk).stagesInOrder, ?_⟩
  intro videoID userID token contentType t video file hid htok hjwt hget hown hform hmedia
    htemp hcopy hfail
  subst hown
  rcases hfail with h | ⟨out, h1, h | h⟩
  · simp [final, handlerUploadVideo, uploadStaged, getVideoAspectRatio, emit, writeFile,
      removeFile, respondWithError, World.start, hid, htok, hjwt, hget, hform, hmedia, htemp,
      hcopy, h]
  · simp [final, handlerUploadVideo, uploadStaged, getVideoAspectRatio, emit, writeFile,
      removeFile, respondWithError, World.start, hid, htok, hjwt, hget, hform, hmedia, htemp,
      hcopy, h1, h]
  · simp [final, handlerUploadVideo, uploadStaged, getVideoAspectRatio, emit, writeFile,
      removeFile, respondWithError, World.start, hid, htok, hjwt, hget, hform, hmedia, htemp,
      hcopy, h1, h]

/-- C6, at a request whose inspector run exits with an error. -/
theorem video_pipeline_order_witness :
    demoEnvProbeFails.ffprobe "/tmp/tubely-upload.mp4-1" = none ∧
      (handlerUploadVideo demoCfg demoEnvProbeFails demoRequest (World.start [])).response =
        some (.error 500 "Couldn't get aspect ratio") ∧
      (handlerUploadVideo demoCfg demoEnvProbeFails demoRequest (World.start [])).trace =
        [.GetVideo demoVideoID true, .CreateTemp "/tmp/tubely-upload.mp4-1",
          .CopyToTemp "/tmp/tubely-upload.mp4-1" true,
          .Inspect "/tmp/tubely-upload.mp4-1" false,
          .Close "/tmp/tubely-upload.mp4-1", .Remove "/tmp/tubely-upload.mp4-1"] :=
  ⟨rfl,
    (video_pipeline_order demoCfg demoEnvProbeFails demoRequest []).2 demoVideoID demoOwner
      "owner-token" "video/mp4" "/tmp/tubely-upload.mp4-1" demoVideo [0, 0, 0, 24]
      rfl rfl rfl rfl rfl rfl rfl rfl rfl (Or.inl rfl)⟩

/-- C1: when the request is otherwise valid (well-formed id, valid token, existing record;
for the thumbnail handler also a parseable form with the field `thumbnail`) and the
authenticated caller is not the owner of the fetched record, the handler responds 401 and
performs no mutation: the only external call is the lookup (no `UpdateVideo`, no file
creation, no `PutObject`) and the disk is unchanged. The video handler checks the owner
before it reads the form, so nothing is assumed about the form there. -/
theorem non_owner_rejected (cfg : apiConfig) (env : Env) (r : Request)
    (disk : List (String × Bytes)) (videoID userID : UUID) (token : String) (video : Video)
    (hid : env.uuidParse r.pathVideoID = some videoID)
    (htok : r.bearerToken = some token)
    (hjwt : env.validateJWT token cfg.jwtSecret = some userID)
    (hget : env.getVideo videoID = some video)
    (hown : video.UserID ≠ userID) :
    (r.multipartOk = true →
      ∀ (file : Bytes) (contentType : String),
        r.formFile "thumbnail" = some (file, contentType) →
        (handlerUploadThumbnail cfg env r (World.start disk)).response =
            some (.error 401 "User is not video owner") ∧
          (handlerUploadThumbnail cfg env r (World.start disk)).trace =
            [.GetVideo videoID true] ∧
          (handlerUploadThumbnail cfg env r (World.start disk)).files = disk) ∧
      ((handlerUploadVideo cfg env r (World.start disk)).response =
          some (.error 401 "Not authorized to update this video") ∧
        (handlerUploadVideo cfg env r (World.start disk)).trace = [.GetVideo videoID true] ∧
        (handlerUploadVideo cfg env r (World.start disk)).files = disk) := by
  constructor
  · intro hparse file contentType hform
    simp [handlerUploadThumbnail, emit, respondWithError, World.start, hid, htok, hjwt,
      hparse, hform, hget, hown]
  · simp [handlerUploadVideo, emit, respondWithError, World.start, hid, htok, hjwt, hget,
      hown]

/-- C1, at a thumbnail upload and at a video upload carrying the field `video` only, both
sent with another user's valid token. -/
theorem non_owner_rejected_witness :
    demoVideo.UserID ≠ demoStranger ∧
      ((handlerUploadThumbnail demoCfg demoEnv demoStrangerRequest (World.start [])).response =
            some (.error 401 "User is not video owner") ∧
          (handlerUploadThumbnail demoCfg demoEnv demoStrangerRequest (World.start [])).trace =
            [.GetVideo demoVideoID true] ∧
          (handlerUploadThumbnail demoCfg demoEnv demoStrangerRequest (World.start [])).files =
            []) ∧
        demoStrangerVideoOnly.formFile "thumbnail" = none ∧
        ((handlerUploadVideo demoCfg demoEnv demoStrangerVideoOnly (World.start [])).response =
            some (.error 401 "Not authorized to update this video") ∧
          (handlerUploadVideo demoCfg demoEnv demoStrangerVideoOnly (World.start [])).trace =
            [.GetVideo demoVideoID true] ∧
          (handlerUploadVideo demoCfg demoEnv demoStrangerVideoOnly (World.start [])).files =
            []) :=
  ⟨by decide,
    (non_owner_rejected demoCfg demoEnv demoStrangerRequest [] demoVideoID demoStranger
      "stranger-token" demoVideo rfl rfl rfl rfl (by decide)).1 rfl [137, 80, 78, 71]
      "image/png" rfl,
    rfl,
    (non_owner_rejected demoCfg demoEnv demoStrangerVideoOnly [] demoVideoID demoStranger
      "stranger-token" demoVideo rfl rfl rfl rfl (by decide)).2⟩

/-- C9 (amended): for every request with a well-formed video id that lacks a valid bearer
token (no bearer token in the Authorization header, or a token that fails validation), both
handlers respond 401 without touching storage: no external call is made at all and the disk
is unchanged. -/
theorem unauthenticated_rejected (cfg : apiConfig) (env : Env) (r : Request)
    (disk : List (String × Bytes)) (videoID : UUID)
    (hid : env.uuidParse r.pathVideoID = some videoID)
    (hbad : r.bearerToken = none ∨
      ∃ token, r.bearerToken = some token ∧ env.validateJWT token cfg.jwtSecret = none) :
    ((handlerUploadThumbnail cfg env r (World.start disk)).response.map Response.status =
          some 401 ∧
        (handlerUploadThumbnail cfg env r (World.start disk)).trace = [] ∧
        (handlerUploadThumbnail cfg env r (World.start disk)).files = disk) ∧
      ((handlerUploadVideo cfg env r (World.start disk)).response.map Response.status =
          some 401 ∧
        (handlerUploadVideo cfg env r (World.start disk)).trace = [] ∧
        (handlerUploadVideo cfg env r (World.start disk)).files = disk) := by
  rcases hbad with h | ⟨token, h1, h2⟩
  · constructor
    · simp [handlerUploadThumbnail, respondWithError, World.start, Response.status, hid, h]
    · simp [handlerUploadVideo, respondWithError, World.start, Response.status, hid, h]
  · constructor
    · simp [handlerUploadThumbnail, respondWithError, World.start, Response.status, hid, h1,
        h2]
    · simp [handlerUploadVideo, respondWithError, World.start, Response.status, hid, h1, h2]

/-- C9 (amended), at the owner's request without an Authorization header. -/
theorem unauthenticated_rejected_witness :
    demoAnonymous.bearerToken = none ∧
      ((handlerUploadThumbnail demoCfg demoEnv demoAnonymous (World.start [])).response.map
            Response.status = some 401 ∧
          (handlerUploadThumbnail demoCfg demoEnv demoAnonymous (World.start [])).trace = [] ∧
          (handlerUploadThumbnail demoCfg demoEnv demoAnonymous (World.start [])).files = []) ∧
        ((handlerUploadVideo demoCfg demoEnv demoAnonymous (World.start [])).response.map
            Response.status = some 401 ∧
          (handlerUploadVideo demoCfg demoEnv demoAnonymous (World.start [])).trace = [] ∧
          (handlerUploadVideo demoCfg demoEnv demoAnonymous (World.start [])).files = []) :=
  ⟨rfl, unauthenticated_rejected demoCfg demoEnv demoAnonymous [] demoVideoID rfl (Or.inl rfl)⟩

/-- C9 (as stated) fails: a request that lacks a bearer token and whose video id is
malformed is answered with 400 by both handlers, because the id is parsed first. -/
theorem unauthenticated_malformed_id_counterexample :
    demoAnonymousBadID.bearerToken = none ∧
      (handlerUploadThumbnail demoCfg demoEnv demoAnonymousBadID (World.start [])).response =
        some (.error 400 "Invalid ID") ∧
      (handlerUploadVideo demoCfg demoEnv demoAnonymousBadID (World.start [])).response =
        some (.error 400 "Invalid ID") := by
  refine ⟨rfl, ?_, ?_⟩
  · simp [handlerUploadThumbnail, respondWithError, World.start, demoAnonymousBadID,
      demoRequest, demoEnv, demoEnvOf]
  · simp [handlerUploadVideo, respondWithError, World.start, demoAnonymousBadID,
      demoRequest, demoEnv, demoEnvOf]

/-- C4 (amended): for every authorised thumbnail upload whose declared Content-Type yields
a non-empty extension list, with `ext` the first extension, and for which creating the
file, copying the upload into it and `UpdateVideo` all succeed: the handler writes the
uploaded bytes to `<assetsRoot>/<videoID><ext>`, calls `UpdateVideo` with the fetched
record in which only `ThumbnailURL` is replaced by `/assets/<videoID><ext>`, and responds
200 with that record; in particular for Content-Type `image/png` the file name is
`<videoID>.png` and the URL is `/assets/<videoID>.png`. When the lookup errors or yields no
extension the handler responds 400, creates no file and does not call `UpdateVideo`. -/
theorem thumbnail_upload_stores_and_links (cfg : apiConfig) (env : Env) (r : Request)
    (disk : List (String × Bytes)) (videoID userID : UUID) (token contentType : String)
    (video : Video) (file : Bytes)
    (hid : env.uuidParse r.pathVideoID = some videoID)
    (htok : r.bearerToken = some token)
    (hjwt : env.validateJWT token cfg.jwtSecret = some userID)
    (hparse : r.multipartOk = true)
    (hform : r.formFile "thumbnail" = some (file, contentType))
    (hget : env.getVideo videoID = some video)
    (hown : video.UserID = userID) :
    let final := handlerUploadThumbnail cfg env r (World.start disk)
    (∀ (ext : String) (more : List String),
      env.extensionsByType contentType = some (ext :: more) →
      env.osCreate (env.filepathJoin cfg.assetsRoot (videoID.canonical ++ ext)) = true →
      env.ioCopy (env.filepathJoin cfg.assetsRoot (videoID.canonical ++ ext)) file =
        (file, true) →
      env.updateVideo
        { video with ThumbnailURL := some ("/assets/" ++ (videoID.canonical ++ ext)) } = true →
      readFile (env.filepathJoin cfg.assetsRoot (videoID.canonical ++ ext)) final = file ∧
        final.trace =
          [.GetVideo videoID true,
            .Create (env.filepathJoin cfg.assetsRoot (videoID.canonical ++ ext)) true,
            .CopyToFile (env.filepathJoin cfg.assetsRoot (videoID.canonical ++ ext)) true,
            .UpdateVideo
              { video with ThumbnailURL := some ("/assets/" ++ (videoID.canonical ++ ext)) }
              true,
            .Close (env.filepathJoin cfg.assetsRoot (videoID.canonical ++ ext))] ∧
        final.response = some (.json 200
          { video with ThumbnailURL := some ("/assets/" ++ (videoID.canonical ++ ext)) })) ∧
    (contentType = "image/png" →
      env.osCreate (env.filepathJoin cfg.assetsRoot (videoID.canonical ++ ".png")) = true →
      env.ioCopy (env.filepathJoin cfg.assetsRoot (videoID.canonical ++ ".png")) file =
        (file, true) →
      env.updateVideo
        { video with ThumbnailURL := some ("/assets/" ++ (videoID.canonical ++ ".png")) } =
          true →
      readFile (env.filepathJoin cfg.assetsRoot (videoID.canonical ++ ".png")) final = file ∧
        final.trace =
          [.GetVideo videoID true,
            .Create (env.filepathJoin cfg.assetsRoot (videoID.canonical ++ ".png")) true,
            .CopyToFile (env.filepathJoin cfg.assetsRoot (videoID.canonical ++ ".png")) true,
            .UpdateVideo
              { video with ThumbnailURL := some ("/assets/" ++ (videoID.canonical ++ ".png")) }
              true,
            .Close (env.filepathJoin cfg.assetsRoot (videoID.canonical ++ ".png"))] ∧
        final.response = some (.json 200
          { video with ThumbnailURL := some ("/assets/" ++ (videoID.canonical ++ ".png")) })) ∧
    (env.extensionsByType contentType = none ∨ env.extensionsByType contentType = some [] →
      final.response = some (.error 400 "Invalid file extension") ∧
        final.trace = [.GetVideo videoID true] ∧ final.files = disk) := by
  subst hown
  intro final
  have general : ∀ (ext : String) (more : List String),
      env.extensionsByType contentType = some (ext :: more) →
      env.osCreate (env.filepathJoin cfg.assetsRoot (videoID.canonical ++ ext)) = true →
      env.ioCopy (env.filepathJoin cfg.assetsRoot (videoID.canonical ++ ext)) file =
        (file, true) →
      env.updateVideo
        { video with ThumbnailURL := some ("/assets/" ++ (videoID.canonical ++ ext)) } = true →
      readFile (env.filepathJoin cfg.assetsRoot (videoID.canonical ++ ext)) final = file ∧
        final.trace =
          [.GetVideo videoID true,
            .Create (env.filepathJoin cfg.assetsRoot (videoID.canonical ++ ext)) true,
            .CopyToFile (env.filepathJoin cfg.assetsRoot (videoID.canonical ++ ext)) true,
            .UpdateVideo
              { video with ThumbnailURL := some ("/assets/" ++ (videoID.canonical ++ ext)) }
              true,
            .Close (env.filepathJoin cfg.assetsRoot (videoID.canonical ++ ext))] ∧
        final.response = some (.json 200
          { video with ThumbnailURL := some ("/assets/" ++ (videoID.canonical ++ ext)) }) := by
    intro ext more hext hcreate hcopy hupd
    simp [final, handlerUploadThumbnail, emit, writeFile, readFile, respondWithError,
      respondWithJSON, World.start, hid, htok, hjwt, hparse, hform, hget, hext, hcreate, hcopy,
      hupd]
  refine ⟨general, ?_, ?_⟩
  · intro hpng hcreate hcopy hupd
    have hext : env.extensionsByType contentType = some [".png"] := by
      simp [Env.extensionsByType, hpng]
    exact general ".png" [] hext hcreate hcopy hupd
  · rintro (h | h)
    · simp [final, handlerUploadThumbnail, emit, respondWithError, World.start, hid, htok,
        hjwt, hparse, hform, hget, h]
    · simp [final, handlerUploadThumbnail, emit, respondWithError, World.start, hid, htok,
        hjwt, hparse, hform, hget, h]

/-- C4 (amended), at the owner's upload of a thumbnail declared `image/png`: the file is
`/srv/assets/<videoID>.png` and the URL `/assets/<videoID>.png`. -/
theorem thumbnail_upload_stores_and_links_witness :
    demoRequest.formFile "thumbnail" = some ([137, 80, 78, 71], "image/png") ∧
      readFile "/srv/assets/7d3f2a10-5b1c-4e0a-9c2d-1f6e8a4b0c55.png"
          (handlerUploadThumbnail demoCfg demoEnv demoRequest (World.start [])) =
        [137, 80, 78, 71] ∧
      (handlerUploadThumbnail demoCfg demoEnv demoRequest (World.start [])).trace =
        [.GetVideo demoVideoID true,
          .Create "/srv/assets/7d3f2a10-5b1c-4e0a-9c2d-1f6e8a4b0c55.png" true,
          .CopyToFile "/srv/assets/7d3f2a10-5b1c-4e0a-9c2d-1f6e8a4b0c55.png" true,
          .UpdateVideo
            { demoVideo with
              ThumbnailURL := some "/assets/7d3f2a10-5b1c-4e0a-9c2d-1f6e8a4b0c55.png" } true,
          .Close "/srv/assets/7d3f2a10-5b1c-4e0a-9c2d-1f6e8a4b0c55.png"] ∧
      (handlerUploadThumbnail demoCfg demoEnv demoRequest (World.start [])).response =
        some (.json 200
          { demoVideo with
            ThumbnailURL := some "/assets/7d3f2a10-5b1c-4e0a-9c2d-1f6e8a4b0c55.png" }) :=
  ⟨rfl,
    (thumbnail_upload_stores_and_links demoCfg demoEnv demoRequest [] demoVideoID demoOwner
      "owner-token" "image/png" demoVideo [137, 80, 78, 71] rfl rfl rfl rfl rfl rfl rfl).2.1
      rfl rfl rfl rfl⟩

/-- C4 (as stated) fails: an authorised PNG upload whose file cannot be created is answered
with 500; nothing is written and `UpdateVideo` is not called. -/
theorem thumbnail_create_failure_counterexample :
    demoEnvCreateFails.extensionsByType "image/png" = some [".png"] ∧
      (handlerUploadThumbnail demoCfg demoEnvCreateFails demoRequest (World.start [])).response =
        some (.error 500 "Error writing file") ∧
      (handlerUploadThumbnail demoCfg demoEnvCreateFails demoRequest (World.start [])).trace =
        [.GetVideo demoVideoID true,
          .Create "/srv/assets/7d3f2a10-5b1c-4e0a-9c2d-1f6e8a4b0c55.png" false] ∧
      (handlerUploadThumbnail demoCfg demoEnvCreateFails demoRequest (World.start [])).files =
        [] := by
  refine ⟨rfl, ?_, ?_, ?_⟩ <;>
    simp [handlerUploadThumbnail, Env.extensionsByType, emit, respondWithError, World.start,
      demoEnvCreateFails, demoEnv, demoEnvOf, demoRequest, demoCfg, demoVideo, demoVideoID,
      demoOwner]

/-- C8: the code at an authorised PNG upload whose copy stops with an error after one byte.
The handler still calls `UpdateVideo` and responds 200, and the record points at a file
holding one byte of the four uploaded. -/
theorem thumbnail_copy_error_ignored :
    (demoEnvCopyFails.ioCopy "/srv/assets/7d3f2a10-5b1c-4e0a-9c2d-1f6e8a4b0c55.png"
        [137, 80, 78, 71]).2 = false ∧
      (handlerUploadThumbnail demoCfg demoEnvCopyFails demoRequest (World.start [])).response =
        some (.json 200
          { demoVideo with
            ThumbnailURL := some "/assets/7d3f2a10-5b1c-4e0a-9c2d-1f6e8a4b0c55.png" }) ∧
      (handlerUploadThumbnail demoCfg demoEnvCopyFails demoRequest (World.start [])).trace =
        [.GetVideo demoVideoID true,
          .Create "/srv/assets/7d3f2a10-5b1c-4e0a-9c2d-1f6e8a4b0c55.png" true,
          .CopyToFile "/srv/assets/7d3f2a10-5b1c-4e0a-9c2d-1f6e8a4b0c55.png" false,
          .UpdateVideo
            { demoVideo with
              ThumbnailURL := some "/assets/7d3f2a10-5b1c-4e0a-9c2d-1f6e8a4b0c55.png" } true,
          .Close "/srv/assets/7d3f2a10-5b1c-4e0a-9c2d-1f6e8a4b0c55.png"] ∧
      (handlerUploadThumbnail demoCfg demoEnvCopyFails demoRequest (World.start [])).files =
        [("/srv/assets/7d3f2a10-5b1c-4e0a-9c2d-1f6e8a4b0c55.png", [137])] := by
  refine ⟨rfl, ?_, ?_, ?_⟩ <;>
    simp [handlerUploadThumbnail, Env.extensionsByType, emit, writeFile, respondWithError,
      respondWithJSON, World.start, demoEnvCopyFails, demoEnv, demoEnvOf, demoRequest, demoCfg,
      demoVideo, demoVideoID, demoOwner]

/-- C5: the code at two video uploads. When opening the remuxed file fails, and when the
remuxer fails after creating its output, the handler returns with
`<temp>.processing` still on disk; only the raw upload has been removed. -/
theorem processing_file_left_behind :
    (handlerUploadVideo demoCfg demoEnvOpenFails demoRequest (World.start [])).files =
        [("/tmp/tubely-upload.mp4-1.processing", [0, 0, 0, 32])] ∧
      (handlerUploadVideo demoCfg demoEnvRemuxFails demoRequest (World.start [])).files =
        [("/tmp/tubely-upload.mp4-1.processing", [0, 0])] := by
  constructor
  · simp [handlerUploadVideo, uploadStaged, uploadOpened, processVideoForFastStart,
      getVideoAspectRatio, emit, writeFile, removeFile, readFile, fileExists,
      respondWithError, World.start, demoEnvOpenFails, demoEnv, demoEnvOf, demoRequest, demoCfg,
      demoVideo, demoVideoID, demoOwner]
  · simp [handlerUploadVideo, uploadStaged, uploadOpened, processVideoForFastStart,
      getVideoAspectRatio, emit, writeFile, removeFile, readFile, fileExists,
      respondWithError, World.start, demoEnvRemuxFails, demoEnv, demoEnvOf, demoRequest, demoCfg,
      demoVideo, demoVideoID, demoOwner]

/-- C7: the code at a video upload in which opening the remuxed file fails. The handler
returns without writing any response, although the failing step is not the remux. -/
theorem open_failure_sends_no_response :
    (handlerUploadVideo demoCfg demoEnvOpenFails demoRequest (World.start [])).trace =
        [.GetVideo demoVideoID true, .CreateTemp "/tmp/tubely-upload.mp4-1",
          .CopyToTemp "/tmp/tubely-upload.mp4-1" true, .Inspect "/tmp/tubely-upload.mp4-1" true,
          .Remux "/tmp/tubely-upload.mp4-1" "/tmp/tubely-upload.mp4-1.processing" true,
          .Open "/tmp/tubely-upload.mp4-1.processing" false,
          .Close "/tmp/tubely-upload.mp4-1", .Remove "/tmp/tubely-upload.mp4-1"] ∧
      (handlerUploadVideo demoCfg demoEnvOpenFails demoRequest (World.start [])).response =
        none := by
  constructor <;>
    simp [handlerUploadVideo, uploadStaged, uploadOpened, processVideoForFastStart,
      getVideoAspectRatio, emit, writeFile, removeFile, readFile, fileExists,
      respondWithError, World.start, demoEnvOpenFails, demoEnv, demoEnvOf, demoRequest, demoCfg,
      demoVideo, demoVideoID, demoOwner]

end Tubely
